import Mathlib

/-!
# learn-opengl: a shallow embedding of `src/main.c`

The program is a single C file.  Its mutable state is the `struct context`
living in `main`, the global `g__running`, the two output streams and
everything that sits behind the SDL / OpenGL / libc interfaces.  All of this
is gathered in one record, `World`, and every C function becomes a Lean
function that passes the world along explicitly.

Conventions used throughout:

* `unsigned int` handles are `Nat` (reduced modulo `2^32` where a value
  enters from the driver), `int` is `Int` (reduced by `int32` where the
  source performs arithmetic);
* `printf`-style output is kept as the format string of the source together
  with its arguments; no formatting is performed;
* calls into SDL, OpenGL, stb_image and libc are recorded in `World.calls`
  and answered by `World.driver`, a script of replies indexed by the number
  of calls made so far.  A reply may also raise OpenGL errors, which are
  appended to the pending error queue `World.gl_errors`;
* floating point arguments (colours, matrices, times) are not modelled and
  appear as `Arg.flt`;
* `World.renders` is not state of the program: it records each entry into a
  render function, so that statements can say which render function ran.
-/

namespace LearnOpenGL

/-! ## Constants taken from the SDL2, OpenGL and libc headers -/

abbrev GLenum := Nat
abbrev GLuint := Nat
abbrev SDL_Keycode := Int

def GL_NO_ERROR : GLenum := 0
def GL_FALSE : Int := 0
def GL_VERTEX_SHADER : Nat := 0x8B31
def GL_FRAGMENT_SHADER : Nat := 0x8B30
def GLEW_OK : Int := 0
def SIG_ERR : Int := -1
def SIGINT : Int := 2
def SIGSEGV : Int := 11

def SDLK_ESCAPE : SDL_Keycode := 27
def SDLK_1 : SDL_Keycode := 49
def SDLK_2 : SDL_Keycode := 50
def SDLK_3 : SDL_Keycode := 51
def SDLK_r : SDL_Keycode := 114
def SDLK_w : SDL_Keycode := 119

def SDL_QUIT : Nat := 0x100
def SDL_KEYDOWN : Nat := 0x300

/-- Two's complement reduction of an integer to the range of a C `int`. -/
def int32 (x : Int) : Int := (x + 2147483648) % 4294967296 - 2147483648

/-- Reduction of a driver supplied value to an `unsigned int`. -/
def uint32 (x : Int) : Nat := (x % 4294967296).toNat

/-! ## Data model (`main.c` lines 36-68) -/

inductive state where
  | STATE_INVALID
  | STATE_RENDER_SQUARE
  | STATE_RENDER_TRIANGLE
  | STATE_RENDER_TEXTURE
  | STATE_RENDER_MAX
  deriving DecidableEq, Repr

/-- The numeric value of an enumerator (`STATE_INVALID = 0`, then counting up). -/
def state.toNat : state → Nat
  | .STATE_INVALID => 0
  | .STATE_RENDER_SQUARE => 1
  | .STATE_RENDER_TRIANGLE => 2
  | .STATE_RENDER_TEXTURE => 3
  | .STATE_RENDER_MAX => 4

structure render_target where
  vao : GLuint
  shader_id : GLuint
  shader_ids : Fin 10 → GLuint
  texture_ids : Fin 10 → GLuint

structure context where
  window : Int
  gl : Int
  state : state
  variation : Int
  rotate : Bool
  render_targets : Fin 4 → render_target
  draw_wireframes : Bool

/-- The value of `(struct render_target) {0}`. -/
def render_target.zero : render_target :=
  { vao := 0, shader_id := 0, shader_ids := fun _ => 0, texture_ids := fun _ => 0 }

/-- The value of `struct context ctx = {0}` (line 620). -/
def context.zero : context :=
  { window := 0, gl := 0, state := .STATE_INVALID, variation := 0, rotate := false,
    render_targets := fun _ => render_target.zero, draw_wireframes := false }

/-- An `SDL_Event`, reduced to the two members the program reads. -/
structure SDL_Event where
  type : Nat
  sym : SDL_Keycode
  deriving DecidableEq, Repr

/-! ## Output and the outside world -/

/-- An argument of a `printf`-style or external call. -/
inductive Arg where
  | int (v : Int)
  | str (s : String)
  | flt
  deriving DecidableEq, Repr

/-- One output statement: the logging form used and what was passed to it. -/
inductive Line where
  | printf (fmt : String) (args : List Arg)
  | stderr (fmt : String) (args : List Arg)
  | DUMP (fmt : String) (args : List Arg)
  | LOG_ERROR (fmt : String) (args : List Arg)
  | FATAL (fmt : String) (args : List Arg)
  deriving DecidableEq, Repr

/-- A call that leaves the program: function name and arguments. -/
structure Call where
  fn : String
  args : List Arg
  deriving DecidableEq, Repr

/-- An entry of the driver's error queue: an error code, which is never
`GL_NO_ERROR` (that value is what `glGetError` answers when nothing is
queued). -/
structure GLerror where
  code : GLenum
  is_error : code ≠ GL_NO_ERROR

/-- What the outside answers to one call: a returned number, a returned
text, and the OpenGL errors the call raised. -/
structure Reply where
  val : Int
  text : String
  raised : List GLerror

/-- Entry into one of the three render functions, with the target it was given. -/
inductive RenderCall where
  | square_render (r : render_target)
  | triangle_render (r : render_target)
  | texture_render (r : render_target)

structure World where
  ctx : context
  g__running : Bool
  out : List Line
  events : List SDL_Event
  gl_errors : List GLerror
  calls : List Call
  driver : Nat → Reply
  renders : List RenderCall

/-! ## Input handling (`main.c` lines 203-254) -/

/-- The `switch (key)` of `process_keydown`.  The increment `ctx->variation++`
is taken in two's complement, where C leaves the overflow undefined. -/
def process_keydown (key : SDL_Keycode) (w : World) : World :=
  if key = SDLK_ESCAPE then
    { w with g__running := false }
  else if key = SDLK_1 then
    { w with ctx := { w.ctx with state := .STATE_RENDER_SQUARE } }
  else if key = SDLK_2 then
    { w with ctx := { w.ctx with state := .STATE_RENDER_TRIANGLE } }
  else if key = SDLK_3 then
    let v := int32 (w.ctx.variation + 1)
    let v := if v ≥ 3 then 0 else v
    { w with ctx := { w.ctx with state := .STATE_RENDER_TEXTURE, variation := v } }
  else if key = SDLK_w then
    { w with ctx := { w.ctx with draw_wireframes := !w.ctx.draw_wireframes } }
  else if key = SDLK_r then
    { w with ctx := { w.ctx with rotate := !w.ctx.rotate } }
  else
    { w with out := w.out ++ [.printf "Unhandled key: %c (%d)\n" [.int key, .int key]] }

/-- The body of the `switch (e.type)` in `handle_input`. -/
def handle_event (e : SDL_Event) (w : World) : World :=
  if e.type = SDL_QUIT then
    { w with g__running := false }
  else if e.type = SDL_KEYDOWN then
    process_keydown e.sym w
  else
    w

/-- The `while (SDL_PollEvent (&e) != 0)` loop over the pending queue: each
poll removes the head of the queue, an empty queue ends the loop. -/
def handle_input_loop : List SDL_Event → World → World
  | [], w => { w with events := [] }
  | e :: rest, w => handle_input_loop rest (handle_event e { w with events := rest })

def handle_input (w : World) : World :=
  handle_input_loop w.events w

/-! ## Effects: a state monad over `World` that can fault

A computation either returns with a new world, or the process faults.  The
`ASSERT` macro faults on purpose, by a store through the null pointer after
its `FATAL` line; the world at the moment of the fault is kept so that the
output written before it can be inspected. -/

inductive Res (α : Type) where
  | ok (a : α) (w : World)
  | abort (w : World)

def Res.world {α : Type} : Res α → World
  | .ok _ w => w
  | .abort w => w

/-- The returned value, when the computation returned. -/
def Res.value? {α : Type} : Res α → Option α
  | .ok a _ => some a
  | .abort _ => none

def Res.aborted {α : Type} : Res α → Bool
  | .ok _ _ => false
  | .abort _ => true

def M (α : Type) : Type := World → Res α

def M.pure {α : Type} (a : α) : M α := fun w => .ok a w

def M.bind {α β : Type} (x : M α) (f : α → M β) : M β := fun w =>
  match x w with
  | .ok a w1 => f a w1
  | .abort w1 => .abort w1

instance : Monad M where
  pure := M.pure
  bind := M.bind

/-- Append one output statement. -/
def say (l : Line) : M Unit := fun w => .ok () { w with out := w.out ++ [l] }

/-- A memory fault outside `ASSERT` (a store or load through a bad pointer). -/
def fault {α : Type} : M α := fun w => .abort w

/-- Read the context. -/
def get_ctx : M context := fun w => .ok w.ctx w

/-- Update the context. -/
def set_ctx (f : context → context) : M Unit := fun w => .ok () { w with ctx := f w.ctx }

/-- Run a step that cannot fault. -/
def step (f : World → World) : M Unit := fun w => .ok () (f w)

/-- Record entry into a render function. -/
def enter (r : RenderCall) : M Unit := fun w => .ok () { w with renders := w.renders ++ [r] }

/-- A call into SDL, OpenGL, stb_image or libc: it is recorded, answered by
the next scripted reply, and the errors it raised join the error queue. -/
def ext (fn : String) (args : List Arg) : M Reply := fun w =>
  let r := w.driver w.calls.length
  .ok r { w with calls := w.calls ++ [⟨fn, args⟩], gl_errors := w.gl_errors ++ r.raised }

/-- An external call whose result is read as an `unsigned int`. -/
def ext_u32 (fn : String) (args : List Arg) : M GLuint := do
  let r ← ext fn args
  pure (uint32 r.val)

/-- An external call whose result is read as an `int`. -/
def ext_i32 (fn : String) (args : List Arg) : M Int := do
  let r ← ext fn args
  pure (int32 r.val)

/-! ## Diagnostics (`main.c` lines 27-29 and 71-85) -/

def ASSERT (func : String) (line : Nat) (text : String) (expr : Bool) : M Unit := fun w =>
  if expr then .ok () w
  else .abort { w with out := w.out ++
    [.FATAL "Assertion failed in %s at %s():%d\n %s"
      [.str "main.c", .str func, .int line, .str text]] }

/-- The line printed by `gl_check_error` for one error code. -/
def gl_error_line (func file : String) (line : Nat) (error : GLenum) : Line :=
  .printf "OpenGL %s:%d> Error %x:\n %s\n" [.str file, .int line, .int error, .str func]

/-- The loop `while ((error = glGetError ()) != GL_NO_ERROR)`: `glGetError`
takes the oldest pending error off the queue, and answers `GL_NO_ERROR`
when nothing is pending. -/
def gl_check_error_loop (func file : String) (line : Nat) :
    List GLerror → Bool → World → Bool × World
  | [], ok, w => (ok, { w with gl_errors := [] })
  | error :: q, ok, w =>
    if error.code ≠ GL_NO_ERROR then
      gl_check_error_loop func file line q false
        { w with gl_errors := q, out := w.out ++ [gl_error_line func file line error.code] }
    else
      (ok, { w with gl_errors := q })

def gl_check_error (func file : String) (line : Nat) : M Bool := fun w =>
  let r := gl_check_error_loop func file line w.gl_errors true w
  .ok r.1 r.2

/-- The macro `GLCALL(expr)`: `expr; ASSERT (gl_check_error (#expr, __FILE__, __LINE__))`. -/
def GLCALL {α : Type} (func : String) (line : Nat) (text : String) (expr : M α) : M α := do
  let a ← expr
  let ok ← gl_check_error text "main.c" line
  ASSERT func line ("gl_check_error (\"" ++ text ++ "\", __FILE__, __LINE__)") ok
  pure a

/-! ## Resource loaders (`main.c` lines 256-416) -/

/-- Returns the buffer address and the text read into it. -/
def read_file_to_buffer (file : String) : M (Int × String) := do
  say (.printf "Read File [%s]:\n" [.str file])
  let fp ← ext "fopen" [.str file, .str "r"]
  let res ←
    if fp.val ≠ 0 then do
      let _ ← ext "fseek" [.int fp.val, .int 0, .str "SEEK_END"]
      let len ← ext "ftell" [.int fp.val]
      let _ ← ext "fseek" [.int fp.val, .int 0, .str "SEEK_SET"]
      let buf ← ext "malloc" [.int (len.val + 1)]
      -- memset (buf, 0, len + 1) comes before the null test
      if buf.val = 0 then fault else pure ()
      let text ←
        if buf.val ≠ 0 then do
          let rd ← ext "fread" [.int buf.val, .int 1, .int len.val, .int fp.val]
          say (.DUMP "%s" [.str rd.text])
          pure rd.text
        else do
          say (.LOG_ERROR "Failed to allocate buffer (len=%zu)" [.int (len.val + 1)])
          pure ""
      let _ ← ext "fclose" [.int fp.val]
      pure (buf.val, text)
    else do
      say (.LOG_ERROR "Failed to read file: '%s'" [.str file])
      pure (0, "")
  ASSERT "read_file_to_buffer" 295 "buf != NULL" (res.1 != 0)
  pure res

def shader_compile (type : Nat) (source : String) : M GLuint := do
  let id ← GLCALL "shader_compile" 308 "id = glCreateShader (type)"
    (ext_u32 "glCreateShader" [.int type])
  let _ ← GLCALL "shader_compile" 309 "glShaderSource (id, 1, &source, NULL)"
    (ext "glShaderSource" [.int id, .int 1, .str source, .int 0])
  let _ ← GLCALL "shader_compile" 310 "glCompileShader (id)"
    (ext "glCompileShader" [.int id])
  let result ← ext_i32 "glGetShaderiv" [.int id, .str "GL_COMPILE_STATUS"]
  let id ←
    if result = GL_FALSE then do
      let len ← ext_i32 "glGetShaderiv" [.int id, .str "GL_INFO_LOG_LENGTH"]
      let message ← ext "glGetShaderInfoLog" [.int id, .int len, .int 0]
      say (.stderr "Failed to compile %s shader:\n%s\n"
        [.str (if type = GL_VERTEX_SHADER then "vertex" else "fragment"), .str message.text])
      let _ ← ext "glDeleteShader" [.int id]
      pure 0
    else
      pure id
  ASSERT "shader_compile" 327 "id != 0" (id != 0)
  pure id

def shader_create (vertex_file fragment_file : String) : M GLuint := do
  let vertex_source ← read_file_to_buffer vertex_file
  let fragment_source ← read_file_to_buffer fragment_file
  let program_id ←
    if vertex_source.1 ≠ 0 ∧ fragment_source.1 ≠ 0 then do
      let vert_id ← shader_compile GL_VERTEX_SHADER vertex_source.2
      let frag_id ← shader_compile GL_FRAGMENT_SHADER fragment_source.2
      let program_id ← ext_u32 "glCreateProgram" []
      let _ ← ext "glAttachShader" [.int program_id, .int vert_id]
      let _ ← ext "glAttachShader" [.int program_id, .int frag_id]
      let _ ← ext "glLinkProgram" [.int program_id]
      let _ ← ext "glValidateProgram" [.int program_id]
      let result ← ext_i32 "glGetProgramiv" [.int program_id, .str "GL_LINK_STATUS"]
      let program_id ←
        if result = GL_FALSE then do
          let len ← ext_i32 "glGetProgramiv" [.int program_id, .str "GL_INFO_LOG_LENGTH"]
          let message ← ext "glGetProgramInfoLog" [.int program_id, .int len, .int 0]
          say (.stderr "Failed to link shader program:\n%s\n" [.str message.text])
          pure 0
        else
          pure program_id
      let _ ← ext "glDeleteShader" [.int vert_id]
      let _ ← ext "glDeleteShader" [.int frag_id]
      pure program_id
    else
      pure 0
  if vertex_source.1 ≠ 0 then do
    let _ ← ext "free" [.int vertex_source.1]
  if fragment_source.1 ≠ 0 then do
    let _ ← ext "free" [.int fragment_source.1]
  ASSERT "shader_create" 379 "program_id != 0" (program_id != 0)
  pure program_id

/-- The reply of `stbi_load` carries the address of the pixels in `val`;
width, height and channel count are requested separately below because a
reply holds one number. -/
def texture_create (file : String) : M GLuint := do
  let _ ← ext "stbi_set_flip_vertically_on_load" [.int 1]
  let data ← ext "stbi_load" [.str file, .int 4]
  let w ← ext_i32 "stbi_load:w" []
  let h ← ext_i32 "stbi_load:h" []
  let bytes_per_pixel ← ext_i32 "stbi_load:bytes_per_pixel" []
  ASSERT "texture_create" 396 "data != NULL" (data.val != 0)
  let id ← GLCALL "texture_create" 398 "glGenTextures (1, &id)" (ext_u32 "glGenTextures" [.int 1])
  let _ ← GLCALL "texture_create" 399 "glBindTexture (GL_TEXTURE_2D, id)"
    (ext "glBindTexture" [.str "GL_TEXTURE_2D", .int id])
  let _ ← GLCALL "texture_create" 401
    "glTexParameteri (GL_TEXTURE_2D, GL_TEXTURE_MIN_FILTER, GL_LINEAR)"
    (ext "glTexParameteri" [.str "GL_TEXTURE_2D", .str "GL_TEXTURE_MIN_FILTER", .str "GL_LINEAR"])
  let _ ← GLCALL "texture_create" 402
    "glTexParameteri (GL_TEXTURE_2D, GL_TEXTURE_MAG_FILTER, GL_LINEAR)"
    (ext "glTexParameteri" [.str "GL_TEXTURE_2D", .str "GL_TEXTURE_MAG_FILTER", .str "GL_LINEAR"])
  let _ ← GLCALL "texture_create" 403
    "glTexParameteri (GL_TEXTURE_2D, GL_TEXTURE_WRAP_S, GL_CLAMP_TO_EDGE)"
    (ext "glTexParameteri"
      [.str "GL_TEXTURE_2D", .str "GL_TEXTURE_WRAP_S", .str "GL_CLAMP_TO_EDGE"])
  let _ ← GLCALL "texture_create" 404
    "glTexParameteri (GL_TEXTURE_2D, GL_TEXTURE_WRAP_T, GL_CLAMP_TO_EDGE)"
    (ext "glTexParameteri"
      [.str "GL_TEXTURE_2D", .str "GL_TEXTURE_WRAP_T", .str "GL_CLAMP_TO_EDGE"])
  let _ ← GLCALL "texture_create" 406
    "glTexImage2D (GL_TEXTURE_2D, 0, GL_RGBA8, w, h, 0, GL_RGBA, GL_UNSIGNED_BYTE, data)"
    (ext "glTexImage2D" [.str "GL_TEXTURE_2D", .int 0, .str "GL_RGBA8", .int w, .int h, .int 0,
      .str "GL_RGBA", .str "GL_UNSIGNED_BYTE", .int data.val])
  let _ ← GLCALL "texture_create" 407 "glGenerateMipmap (GL_TEXTURE_2D)"
    (ext "glGenerateMipmap" [.str "GL_TEXTURE_2D"])
  let _ ← GLCALL "texture_create" 408 "glBindTexture (GL_TEXTURE_2D, 0)"
    (ext "glBindTexture" [.str "GL_TEXTURE_2D", .int 0])
  let _ ← ext "stbi_image_free" [.int data.val]
  ASSERT "texture_create" 411 "id > 0" (decide (id > 0))
  say (.printf "Load texture '%s' (id=%u w=%d h=%d bpp=%d)\n"
    [.str file, .int id, .int w, .int h, .int bytes_per_pixel])
  pure id

/-! ## Render targets (`main.c` lines 418-615)

A setup function receives the target it fills by value and returns the
filled target; a render function receives the target it reads. -/

def square_setup (r : render_target) : M render_target := do
  let vao ← GLCALL "square_setup" 433 "glGenVertexArrays (1, &vao)"
    (ext_u32 "glGenVertexArrays" [.int 1])
  let _ ← GLCALL "square_setup" 434 "glBindVertexArray (vao)" (ext "glBindVertexArray" [.int vao])
  let vbo ← GLCALL "square_setup" 437 "glGenBuffers (1, &vbo)" (ext_u32 "glGenBuffers" [.int 1])
  let _ ← GLCALL "square_setup" 438 "glBindBuffer (GL_ARRAY_BUFFER, vbo)"
    (ext "glBindBuffer" [.str "GL_ARRAY_BUFFER", .int vbo])
  let _ ← GLCALL "square_setup" 439
    "glBufferData (GL_ARRAY_BUFFER, sizeof (vertices), vertices, GL_STATIC_DRAW)"
    (ext "glBufferData" [.str "GL_ARRAY_BUFFER", .int 48, .flt, .str "GL_STATIC_DRAW"])
  let ebo ← GLCALL "square_setup" 442 "glGenBuffers (1, &ebo)" (ext_u32 "glGenBuffers" [.int 1])
  let _ ← GLCALL "square_setup" 443 "glBindBuffer (GL_ELEMENT_ARRAY_BUFFER, ebo)"
    (ext "glBindBuffer" [.str "GL_ELEMENT_ARRAY_BUFFER", .int ebo])
  let _ ← GLCALL "square_setup" 444
    "glBufferData (GL_ELEMENT_ARRAY_BUFFER, sizeof (indices), indices, GL_STATIC_DRAW)"
    (ext "glBufferData" [.str "GL_ELEMENT_ARRAY_BUFFER", .int 24, .int 0, .int 1, .int 3,
      .int 1, .int 2, .int 3, .str "GL_STATIC_DRAW"])
  let _ ← GLCALL "square_setup" 446
    "glVertexAttribPointer (0, 3, GL_FLOAT, GL_FALSE, 3 * sizeof (float), (void *) 0)"
    (ext "glVertexAttribPointer" [.int 0, .int 3, .str "GL_FLOAT", .int GL_FALSE, .int 12, .int 0])
  let _ ← GLCALL "square_setup" 447 "glEnableVertexAttribArray (0)"
    (ext "glEnableVertexAttribArray" [.int 0])
  let shader_id ← shader_create "square.vs" "square.fs"
  ASSERT "square_setup" 451 "shader_id != 0" (shader_id != 0)
  ASSERT "square_setup" 452 "vao != 0" (vao != 0)
  let r := { r with shader_id := shader_id }
  let r := { r with vao := vao }
  pure r

def square_render (r : render_target) : M Unit := do
  enter (.square_render r)
  let _ ← ext "SDL_GetTicks" []
  let _ ← GLCALL "square_render" 465 "glUseProgram (r->shader_id)"
    (ext "glUseProgram" [.int r.shader_id])
  let vert_colour_location ← GLCALL "square_render" 466
    "vert_colour_location = glGetUniformLocation (r->shader_id, \"u_colour\")"
    (ext_i32 "glGetUniformLocation" [.int r.shader_id, .str "u_colour"])
  let _ ← GLCALL "square_render" 467 "glUniform4f (vert_colour_location, 0.0f, green, 0.0f, 1.0f)"
    (ext "glUniform4f" [.int vert_colour_location, .flt, .flt, .flt, .flt])
  let _ ← GLCALL "square_render" 469 "glBindVertexArray (r->vao)"
    (ext "glBindVertexArray" [.int r.vao])
  let _ ← GLCALL "square_render" 470 "glDrawElements (GL_TRIANGLES, 6, GL_UNSIGNED_INT, 0)"
    (ext "glDrawElements" [.str "GL_TRIANGLES", .int 6, .str "GL_UNSIGNED_INT", .int 0])
  let _ ← GLCALL "square_render" 471 "glBindVertexArray (0)" (ext "glBindVertexArray" [.int 0])
  pure ()

def triangle_setup (r : render_target) : M render_target := do
  let vao ← GLCALL "triangle_setup" 485 "glGenVertexArrays (1, &vao)"
    (ext_u32 "glGenVertexArrays" [.int 1])
  let _ ← GLCALL "triangle_setup" 486 "glBindVertexArray (vao)"
    (ext "glBindVertexArray" [.int vao])
  let vbo ← GLCALL "triangle_setup" 489 "glGenBuffers (1, &vbo)" (ext_u32 "glGenBuffers" [.int 1])
  let _ ← GLCALL "triangle_setup" 490 "glBindBuffer (GL_ARRAY_BUFFER, vbo)"
    (ext "glBindBuffer" [.str "GL_ARRAY_BUFFER", .int vbo])
  let _ ← GLCALL "triangle_setup" 491
    "glBufferData (GL_ARRAY_BUFFER, sizeof (vertices), vertices, GL_STATIC_DRAW)"
    (ext "glBufferData" [.str "GL_ARRAY_BUFFER", .int 72, .flt, .str "GL_STATIC_DRAW"])
  let _ ← GLCALL "triangle_setup" 494
    "glVertexAttribPointer (0, 3, GL_FLOAT, GL_FALSE, 6 * sizeof (float), (void *) 0)"
    (ext "glVertexAttribPointer" [.int 0, .int 3, .str "GL_FLOAT", .int GL_FALSE, .int 24, .int 0])
  let _ ← GLCALL "triangle_setup" 495 "glEnableVertexAttribArray (0)"
    (ext "glEnableVertexAttribArray" [.int 0])
  let _ ← GLCALL "triangle_setup" 498
    "glVertexAttribPointer (1, 3, GL_FLOAT, GL_FALSE, 6 * sizeof (float), (void *) (3 * sizeof (float)))"
    (ext "glVertexAttribPointer" [.int 1, .int 3, .str "GL_FLOAT", .int GL_FALSE, .int 24, .int 12])
  let _ ← GLCALL "triangle_setup" 499 "glEnableVertexAttribArray (1)"
    (ext "glEnableVertexAttribArray" [.int 1])
  let shader_id ← shader_create "tri.vs" "tri.fs"
  let r := { r with shader_id := shader_id }
  let r := { r with vao := vao }
  ASSERT "triangle_setup" 504 "r->shader_id != 0" (r.shader_id != 0)
  ASSERT "triangle_setup" 505 "r->vao != 0" (r.vao != 0)
  pure r

def triangle_render (r : render_target) : M Unit := do
  enter (.triangle_render r)
  let _ ← GLCALL "triangle_render" 511 "glUseProgram (r->shader_id)"
    (ext "glUseProgram" [.int r.shader_id])
  let _ ← GLCALL "triangle_render" 512 "glBindVertexArray (r->vao)"
    (ext "glBindVertexArray" [.int r.vao])
  let _ ← GLCALL "triangle_render" 513 "glDrawArrays (GL_TRIANGLES, 0, 3)"
    (ext "glDrawArrays" [.str "GL_TRIANGLES", .int 0, .int 3])
  let _ ← GLCALL "triangle_render" 514 "glBindVertexArray (0)" (ext "glBindVertexArray" [.int 0])
  pure ()

def texture_setup (r : render_target) : M render_target := do
  let vao ← GLCALL "texture_setup" 533 "glGenVertexArrays (1, &vao)"
    (ext_u32 "glGenVertexArrays" [.int 1])
  let _ ← GLCALL "texture_setup" 534 "glBindVertexArray (vao)" (ext "glBindVertexArray" [.int vao])
  let vbo ← GLCALL "texture_setup" 537 "glGenBuffers (1, &vbo)" (ext_u32 "glGenBuffers" [.int 1])
  let _ ← GLCALL "texture_setup" 538 "glBindBuffer (GL_ARRAY_BUFFER, vbo)"
    (ext "glBindBuffer" [.str "GL_ARRAY_BUFFER", .int vbo])
  let _ ← GLCALL "texture_setup" 539
    "glBufferData (GL_ARRAY_BUFFER, sizeof (vertices), vertices, GL_STATIC_DRAW)"
    (ext "glBufferData" [.str "GL_ARRAY_BUFFER", .int 128, .flt, .str "GL_STATIC_DRAW"])
  let ebo ← GLCALL "texture_setup" 542 "glGenBuffers (1, &ebo)" (ext_u32 "glGenBuffers" [.int 1])
  let _ ← GLCALL "texture_setup" 543 "glBindBuffer (GL_ELEMENT_ARRAY_BUFFER, ebo)"
    (ext "glBindBuffer" [.str "GL_ELEMENT_ARRAY_BUFFER", .int ebo])
  let _ ← GLCALL "texture_setup" 544
    "glBufferData (GL_ELEMENT_ARRAY_BUFFER, sizeof (indices), indices, GL_STATIC_DRAW)"
    (ext "glBufferData" [.str "GL_ELEMENT_ARRAY_BUFFER", .int 24, .int 0, .int 1, .int 3,
      .int 1, .int 2, .int 3, .str "GL_STATIC_DRAW"])
  let _ ← GLCALL "texture_setup" 547
    "glVertexAttribPointer (0, 3, GL_FLOAT, GL_FALSE, 8 * sizeof (float), (void *) 0)"
    (ext "glVertexAttribPointer" [.int 0, .int 3, .str "GL_FLOAT", .int GL_FALSE, .int 32, .int 0])
  let _ ← GLCALL "texture_setup" 548 "glEnableVertexAttribArray (0)"
    (ext "glEnableVertexAttribArray" [.int 0])
  let _ ← GLCALL "texture_setup" 551
    "glVertexAttribPointer (1, 3, GL_FLOAT, GL_FALSE, 8 * sizeof (float), (void *) (3 * sizeof (float)))"
    (ext "glVertexAttribPointer" [.int 1, .int 3, .str "GL_FLOAT", .int GL_FALSE, .int 32, .int 12])
  let _ ← GLCALL "texture_setup" 552 "glEnableVertexAttribArray (1)"
    (ext "glEnableVertexAttribArray" [.int 1])
  let _ ← GLCALL "texture_setup" 555
    "glVertexAttribPointer (2, 2, GL_FLOAT, GL_FALSE, 8 * sizeof (float), (void *) (6 * sizeof (float)))"
    (ext "glVertexAttribPointer" [.int 2, .int 2, .str "GL_FLOAT", .int GL_FALSE, .int 32, .int 24])
  let _ ← GLCALL "texture_setup" 556 "glEnableVertexAttribArray (2)"
    (ext "glEnableVertexAttribArray" [.int 2])
  let t0 ← texture_create "bricks.jpg"
  let r := { r with texture_ids := Function.update r.texture_ids 0 t0 }
  let t1 ← texture_create "face.png"
  let r := { r with texture_ids := Function.update r.texture_ids 1 t1 }
  let s0 ← shader_create "tex.vs" "tex.fs"
  let r := { r with shader_ids := Function.update r.shader_ids 0 s0 }
  let s1 ← shader_create "tex.vs" "tex-colour.fs"
  let r := { r with shader_ids := Function.update r.shader_ids 1 s1 }
  let s2 ← shader_create "tex.vs" "tex-face.fs"
  let r := { r with shader_ids := Function.update r.shader_ids 2 s2 }
  let r := { r with vao := vao }
  ASSERT "texture_setup" 565 "r->texture_ids[0] != 0" (r.texture_ids 0 != 0)
  ASSERT "texture_setup" 566 "r->texture_ids[1] != 0" (r.texture_ids 1 != 0)
  ASSERT "texture_setup" 567 "r->shader_ids[0] != 0" (r.shader_ids 0 != 0)
  ASSERT "texture_setup" 568 "r->shader_ids[1] != 0" (r.shader_ids 1 != 0)
  ASSERT "texture_setup" 569 "r->shader_ids[2] != 0" (r.shader_ids 2 != 0)
  ASSERT "texture_setup" 570 "r->vao != 0" (r.vao != 0)
  pure r

/-- The read `rt->shader_ids[ctx->variation]`: inside the array it yields the
slot; outside the array the behaviour of the C program is undefined, which
is modelled as a fault. -/
def load_shader_ids (rt : render_target) (i : Int) : M GLuint :=
  if h : 0 ≤ i ∧ i < 10 then
    pure (rt.shader_ids ⟨i.toNat, by omega⟩)
  else
    fault

def texture_render (rt : render_target) : M Unit := do
  enter (.texture_render rt)
  let ctx ← get_ctx
  let shader_id ← load_shader_ids rt ctx.variation
  if ctx.rotate then do
    let _ ← ext "SDL_GetTicks" []
  let _ ← GLCALL "texture_render" 589 "glUseProgram (shader_id)"
    (ext "glUseProgram" [.int shader_id])
  let xfrm_location ← GLCALL "texture_render" 590
    "xfrm_location = glGetUniformLocation (shader_id, \"u_xfrm\")"
    (ext_u32 "glGetUniformLocation" [.int shader_id, .str "u_xfrm"])
  let _ ← GLCALL "texture_render" 591
    "glUniformMatrix4fv (xfrm_location, 1, GL_FALSE, &xfrm.m[0][0])"
    (ext "glUniformMatrix4fv" [.int (int32 xfrm_location), .int 1, .int GL_FALSE, .flt])
  let tex_location ← GLCALL "texture_render" 592
    "tex_location = glGetUniformLocation (shader_id, \"u_texture0\")"
    (ext_u32 "glGetUniformLocation" [.int shader_id, .str "u_texture0"])
  let _ ← GLCALL "texture_render" 593 "glUniform1i (tex_location, 0)"
    (ext "glUniform1i" [.int (int32 tex_location), .int 0])
  let _ ← GLCALL "texture_render" 595 "glActiveTexture (GL_TEXTURE0)"
    (ext "glActiveTexture" [.str "GL_TEXTURE0"])
  let _ ← GLCALL "texture_render" 596 "glBindTexture (GL_TEXTURE_2D, rt->texture_ids[0])"
    (ext "glBindTexture" [.str "GL_TEXTURE_2D", .int (rt.texture_ids 0)])
  if ctx.variation = 2 then do
    let _ ← GLCALL "texture_render" 599 "glUseProgram (shader_id)"
      (ext "glUseProgram" [.int shader_id])
    let tex_location ← GLCALL "texture_render" 600
      "tex_location = glGetUniformLocation (shader_id, \"u_texture1\")"
      (ext_u32 "glGetUniformLocation" [.int shader_id, .str "u_texture1"])
    let _ ← GLCALL "texture_render" 601 "glUniform1i (tex_location, 1)"
      (ext "glUniform1i" [.int (int32 tex_location), .int 1])
    let _ ← GLCALL "texture_render" 603 "glActiveTexture (GL_TEXTURE1)"
      (ext "glActiveTexture" [.str "GL_TEXTURE1"])
    let _ ← GLCALL "texture_render" 604 "glBindTexture (GL_TEXTURE_2D, rt->texture_ids[1])"
      (ext "glBindTexture" [.str "GL_TEXTURE_2D", .int (rt.texture_ids 1)])
  let _ ← GLCALL "texture_render" 606 "glBindVertexArray (rt->vao)"
    (ext "glBindVertexArray" [.int rt.vao])
  let _ ← GLCALL "texture_render" 609 "glDrawElements (GL_TRIANGLES, 6, GL_UNSIGNED_INT, 0)"
    (ext "glDrawElements" [.str "GL_TRIANGLES", .int 6, .str "GL_UNSIGNED_INT", .int 0])
  let _ ← GLCALL "texture_render" 612 "glBindVertexArray (0)" (ext "glBindVertexArray" [.int 0])
  let _ ← GLCALL "texture_render" 613 "glBindTexture (GL_TEXTURE_2D, 0)"
    (ext "glBindTexture" [.str "GL_TEXTURE_2D", .int 0])
  let _ ← GLCALL "texture_render" 614 "glUseProgram (0)" (ext "glUseProgram" [.int 0])
  pure ()

/-! ## Crash handler (`trace.h`, and `main.c` lines 139-152)

`stack_trace` declares `void *stack[64]` and asks `CaptureStackBackTrace`
for up to 100 frames.  A capture of more than 64 frames writes past the end
of the array; as for every access outside an array, the behaviour of the C
program is then undefined, which is modelled as a fault at the capture.
When the capture fits, every later read `stack[i]` has `i < frame_count`
and so stays inside the array. -/

/-- The loop `for (int i = 1; i < frame_count; i++)` of `stack_trace`, with
the number of passes still to make as first argument. -/
def stack_trace_loop (process : Int) (frame_count : Nat) : Nat → Nat → M Unit
  | 0, _ => pure ()
  | n + 1, i => do
    let symbol ← ext "SymFromAddr" [.int process, .str "stack[i]", .int i, .int 0]
    let line ← ext "SymGetLineFromAddr" [.int process, .str "stack[i]", .int i]
    say (.printf "0x%0llX %i: %s\t(%s:%d)\n"
      [.int symbol.val, .int ((frame_count : Int) - i - 1), .str symbol.text, .str line.text,
        .int line.val])
    stack_trace_loop process frame_count n (i + 1)

def stack_trace : M Unit := do
  let process ← ext "GetCurrentProcess" []
  let _ ← ext "SymInitialize" [.int process.val, .int 0, .int 1]
  let _ ← ext "SymSetOptions" [.str "SYMOPT_LOAD_LINES"]
  let captured ← ext "CaptureStackBackTrace" [.int 0, .int 100, .str "stack", .int 0]
  let frame_count := (captured.val % 65536).toNat
  -- the frames captured were written to `stack`, which has 64 slots
  if frame_count > 64 then fault else pure ()
  say (.printf "----------------------------------------\n" [])
  say (.printf "Call Stack:\n" [])
  say (.printf "----------------------------------------\n" [])
  stack_trace_loop process.val frame_count (frame_count - 1) 1
  say (.printf "----------------------------------------\n" [])

/-- The statements under `case SIGSEGV:`, up to the `break`. -/
def signal_case_SIGSEGV : M Unit := do
  say (.FATAL "SEGMENTATION FAULT" [])
  stack_trace
  step (fun w => { w with g__running := false })

/-- The `switch (signal)` of the handler: `case SIGINT:` has no `break` and
runs on into `case SIGSEGV:`; there is no `default:`. -/
def _signal_handler (signal : Int) : M Unit :=
  if signal = SIGINT then do
    step (fun w => { w with g__running := false })
    signal_case_SIGSEGV
  else if signal = SIGSEGV then
    signal_case_SIGSEGV
  else
    pure ()

/-! ## Start-up, frame loop and shutdown (`main.c` lines 154-201 and 617-678) -/

def init : M Unit := do
  let r ← ext "signal" [.str "SIGINT", .str "_signal_handler"]
  ASSERT "init" 157 "signal (SIGINT, _signal_handler) != SIG_ERR" (r.val != SIG_ERR)
  let r ← ext "signal" [.str "SIGSEGV", .str "_signal_handler"]
  ASSERT "init" 158 "signal (SIGSEGV, _signal_handler) != SIG_ERR" (r.val != SIG_ERR)
  let _ ← ext "SDL_Init" [.str "SDL_INIT_EVERYTHING"]
  let _ ← ext "SDL_GL_SetAttribute" [.str "SDL_GL_CONTEXT_MAJOR_VERSION", .int 3]
  let _ ← ext "SDL_GL_SetAttribute" [.str "SDL_GL_CONTEXT_MINOR_VERSION", .int 3]
  let _ ← ext "SDL_GL_SetAttribute"
    [.str "SDL_GL_CONTEXT_PROFILE_MASK", .str "SDL_GL_CONTEXT_PROFILE_CORE"]
  let _ ← ext "SDL_GL_SetAttribute" [.str "SDL_GL_RED_SIZE", .int 8]
  let _ ← ext "SDL_GL_SetAttribute" [.str "SDL_GL_GREEN_SIZE", .int 8]
  let _ ← ext "SDL_GL_SetAttribute" [.str "SDL_GL_BLUE_SIZE", .int 8]
  let _ ← ext "SDL_GL_SetAttribute" [.str "SDL_GL_ALPHA_SIZE", .int 8]
  let _ ← ext "SDL_GL_SetAttribute" [.str "SDL_GL_BUFFER_SIZE", .int 32]
  let _ ← ext "SDL_GL_SetAttribute" [.str "SDL_GL_DOUBLEBUFFER", .int 1]
  let _ ← ext "SDL_GL_SetAttribute"
    [.str "SDL_GL_CONTEXT_FLAGS", .str "SDL_GL_CONTEXT_DEBUG_FLAG"]
  let window ← ext "SDL_CreateWindow" [.str "Learn OpenGL", .str "SDL_WINDOWPOS_CENTERED",
    .str "SDL_WINDOWPOS_CENTERED", .int 800, .int 600, .str "SDL_WINDOW_OPENGL"]
  set_ctx (fun ctx => { ctx with window := window.val })
  ASSERT "init" 179 "ctx->window != NULL" (window.val != 0)
  let gl ← ext "SDL_GL_CreateContext" [.int window.val]
  set_ctx (fun ctx => { ctx with gl := gl.val })
  ASSERT "init" 182 "ctx->gl != NULL" (gl.val != 0)
  set_ctx (fun ctx => { ctx with variation := -1 })
  let _ ← ext "SDL_GL_SetSwapInterval" [.int 1]
  let r ← ext "glewInit" []
  ASSERT "init" 187 "glewInit () == GLEW_OK" (r.val == GLEW_OK)
  let _ ← ext "glEnable" [.str "GL_DEBUG_OUTPUT"]
  let _ ← ext "glDebugMessageCallback" [.str "_gl_debug_msg_cb", .int 0]
  let version ← ext "glGetString" [.str "GL_VERSION"]
  say (.printf "Learning OpenGL! (version %s)\n" [.str version.text])

def cleanup : M Unit := do
  let ctx ← get_ctx
  let _ ← ext "SDL_GL_DeleteContext" [.int ctx.gl]
  let _ ← ext "SDL_DestroyWindow" [.int ctx.window]
  let _ ← ext "SDL_Quit" []
  pure ()

/-- The address `&ctx.render_targets[i]`, kept as the element it designates;
`none` past the end of the four element array. -/
def target_at (ctx : context) (i : Nat) : Option render_target :=
  if h : i < 4 then some (ctx.render_targets ⟨i, h⟩) else none

/-- Passing `rt` to a function that reads through it. -/
def with_target (rt : Option render_target) (f : render_target → M Unit) : M Unit :=
  match rt with
  | some r => f r
  | none => fault

/-- Lines 658-669: the `switch (ctx.state)` that picks the render function. -/
def render_dispatch (ctx : context) (rt : Option render_target) : M Unit :=
  match ctx.state with
  | .STATE_RENDER_SQUARE => with_target rt square_render
  | .STATE_RENDER_TRIANGLE => with_target rt triangle_render
  | .STATE_RENDER_TEXTURE => with_target rt texture_render
  | _ => pure ()

/-- One pass through the body of `while (g__running)` (lines 648-672). -/
def loop_body : M Unit := do
  step handle_input
  let _ ← GLCALL "main" 652 "glClearColor (0.2, 0.3, 0.3, 1.0)"
    (ext "glClearColor" [.flt, .flt, .flt, .flt])
  let _ ← GLCALL "main" 653 "glClear (GL_COLOR_BUFFER_BIT)"
    (ext "glClear" [.str "GL_COLOR_BUFFER_BIT"])
  let ctx ← get_ctx
  let _ ← GLCALL "main" 654
    "glPolygonMode (GL_FRONT_AND_BACK, ctx.draw_wireframes ? GL_LINE : GL_FILL)"
    (ext "glPolygonMode"
      [.str "GL_FRONT_AND_BACK", .str (if ctx.draw_wireframes then "GL_LINE" else "GL_FILL")])
  let rt := target_at ctx ctx.state.toNat
  render_dispatch ctx rt
  let _ ← ext "SDL_GL_SwapWindow" [.int ctx.window]
  let _ ← ext "SDL_Delay" [.flt]
  pure ()

/-- The loop `while (g__running)`.  Events that arrive before the `n`-th
pass are given by `arrivals n` and join the pending queue at the top of
that pass.  The loop need not end, so it is run with a bound on the number
of times the loop condition is tested; `none` means the bound was reached. -/
def main_loop : Nat → (Nat → List SDL_Event) → Nat → World → Option (Res Unit)
  | 0, _, _, _ => none
  | fuel + 1, arrivals, n, w =>
    if w.g__running then
      match loop_body { w with events := w.events ++ arrivals n } with
      | .ok _ w1 => main_loop fuel arrivals (n + 1) w1
      | .abort w1 => some (.abort w1)
    else
      some (.ok () w)

/-- Lines 620-645 of `main`: everything before the loop. -/
def main_startup : M Unit := do
  set_ctx (fun _ => context.zero)
  init
  let _ ← GLCALL "main" 624 "glViewport (0, 0, WINDOW_WIDTH_PX, WINDOW_HEIGHT_PX)"
    (ext "glViewport" [.int 0, .int 0, .int 800, .int 600])
  let ctx ← get_ctx
  let r ← square_setup (ctx.render_targets 1)
  set_ctx (fun ctx => { ctx with render_targets := Function.update ctx.render_targets 1 r })
  let ctx ← get_ctx
  let r ← triangle_setup (ctx.render_targets 2)
  set_ctx (fun ctx => { ctx with render_targets := Function.update ctx.render_targets 2 r })
  let ctx ← get_ctx
  let r ← texture_setup (ctx.render_targets 3)
  set_ctx (fun ctx => { ctx with render_targets := Function.update ctx.render_targets 3 r })
  step (fun w => { w with g__running := true })

/-- Lines 675-677 of `main`. -/
def main_shutdown : M Int := do
  cleanup
  pure 0

def main (fuel : Nat) (arrivals : Nat → List SDL_Event) (w : World) : Option (Res Int) :=
  match main_startup w with
  | .abort w1 => some (.abort w1)
  | .ok _ w1 =>
    match main_loop fuel arrivals 0 w1 with
    | none => none
    | some (.abort w2) => some (.abort w2)
    | some (.ok _ w2) => some (main_shutdown w2)

/-! ## Vocabulary of the statements -/

/-- An event that asks the program to stop: the window-close event, or a
key-down event for the escape key. -/
def is_quit_request (e : SDL_Event) : Bool :=
  e.type == SDL_QUIT || (e.type == SDL_KEYDOWN && e.sym == SDLK_ESCAPE)

/-- The context as `main` has it when the loop is entered for the first
time, before any key was pressed: zero-initialised, `variation` set to `-1`
by `init`, and the handles obtained during start-up. -/
def startup_context (window gl : Int) (targets : Fin 4 → render_target) : context :=
  { context.zero with window := window, gl := gl, variation := -1, render_targets := targets }

/-- A world in which nothing is pending and the driver answers every call
with `1` and raises no error. -/
def quiet_world (ctx : context) : World :=
  { ctx := ctx, g__running := true, out := [], events := [], gl_errors := [], calls := [],
    driver := fun _ => ⟨1, "", []⟩, renders := [] }

/-- The render function entered for a context by the `switch` of the frame
loop, with the target handed to it; nothing for the two states that have no
`case`. -/
def render_calls_of (ctx : context) : List RenderCall :=
  match ctx.state with
  | .STATE_RENDER_SQUARE => [.square_render (ctx.render_targets 1)]
  | .STATE_RENDER_TRIANGLE => [.triangle_render (ctx.render_targets 2)]
  | .STATE_RENDER_TEXTURE => [.texture_render (ctx.render_targets 3)]
  | _ => []

/-- The outcome of running `m` from `w` satisfies `Q` when `m` returns and
`A` when the process faults. -/
def sat {α : Type} (m : M α) (w : World) (Q : α → World → Prop) (A : World → Prop) : Prop :=
  match m w with
  | .ok a w1 => Q a w1
  | .abort w1 => A w1

/-- The second world differs from the first at most in the output, the
error queue and the record of external calls. -/
def Steady (w w1 : World) : Prop :=
  w1.ctx = w.ctx ∧ w1.g__running = w.g__running ∧ w1.events = w.events ∧
  w1.renders = w.renders ∧ w1.driver = w.driver

/-- A computation that, however it ends, touches only the output, the error
queue and the record of external calls. -/
def Keeps {α : Type} (m : M α) : Prop := ∀ w, Steady w (m w).world

/-- The world at process start: `g__running` is a zero-initialised static,
nothing has been written or called yet, no event is pending, and the outside
answers `GLEW_OK` to `glewInit` (the seventeenth call of `main`) and `1`
to every other call, never raising an OpenGL error. -/
def boot_world : World :=
  { ctx := context.zero, g__running := false, out := [], events := [], gl_errors := [],
    calls := [], driver := fun n => if n = 16 then ⟨0, "", []⟩ else ⟨1, "", []⟩, renders := [] }

/-- The world in which `main` enters its loop when started in `boot_world`. -/
def booted_world : World := (main_startup boot_world).world

/-- Two worlds in which the driver is in the same position: the same errors
are pending and the same replies lie ahead. -/
def Same (u u2 : World) : Prop :=
  u.gl_errors = u2.gl_errors ∧
  ∀ j, u.driver (u.calls.length + j) = u2.driver (u2.calls.length + j)

/-- Two runs, from `u` to `v` and from `u2` to `v2`, wrote the same output
and made the same external calls. -/
def Echo (u u2 v v2 : World) : Prop :=
  ∃ (d : List Line) (c : List Call),
    v.out = u.out ++ d ∧ v2.out = u2.out ++ d ∧ v.calls = u.calls ++ c ∧ v2.calls = u2.calls ++ c

/-- Two outcomes agree: both return the same value or both fault, having
written the same output and made the same calls, and the driver is again in
the same position. -/
def Agree {α : Type} (u u2 : World) : Res α → Res α → Prop
  | .ok a v, .ok a2 v2 => a = a2 ∧ Same v v2 ∧ Echo u u2 v v2
  | .abort v, .abort v2 => Echo u u2 v v2
  | _, _ => False

/-- A computation whose outcome is a function of what the driver answers:
run from two worlds in which the driver is in the same position, it ends
the same way, whatever else differs between the two worlds. -/
def Det {α : Type} (m : M α) : Prop :=
  ∀ u u2, Same u u2 → Agree u u2 (m u) (m u2)

/-- A world in which the driver hands out the shader handle `7`, raises no
error, and reports that compilation failed (reply `0` to the status query,
the fourth call), with a diagnostic text in the reply to the sixth call. -/
def failing_compile_world : World :=
  { ctx := context.zero, g__running := false, out := [], events := [], gl_errors := [],
    calls := [],
    driver := fun n =>
      if n = 3 then ⟨0, "", []⟩
      else if n = 5 then ⟨0, "ERROR: 0:1: unexpected end of input", []⟩
      else ⟨7, "", []⟩,
    renders := [] }

/-- The target `square_setup` and `triangle_setup` return when every handle
the driver hands out is `1`. -/
def plain_target : render_target :=
  { render_target.zero with shader_id := 1, vao := 1 }

/-- The target `texture_setup` returns when every handle the driver hands
out is `1`. -/
def textured_target : render_target :=
  { vao := 1, shader_id := 0,
    shader_ids := Function.update (Function.update (Function.update (fun _ => 0) 0 1) 1 1) 2 1,
    texture_ids := Function.update (Function.update (fun _ => 0) 0 1) 1 1 }

/-- A running world whose call stack is a hundred frames deep: the capture
(the fourth call of `stack_trace`) reports 100 frames, every other call is
answered with `1`, and no OpenGL error is raised. -/
def deep_stack_world : World :=
  { ctx := startup_context 1 1 (fun _ => render_target.zero), g__running := true, out := [],
    events := [], gl_errors := [], calls := [],
    driver := fun n => if n = 3 then ⟨100, "", []⟩ else ⟨1, "", []⟩, renders := [] }

/-- A computation that never faults. -/
def Returns {α : Type} (m : M α) : Prop := ∀ w, (m w).aborted = false

/-- The world after a sequence of key presses, each handled by
`process_keydown` in the order given. -/
def press_keys (keys : List SDL_Keycode) (w : World) : World :=
  keys.foldl (fun w1 key => process_keydown key w1) w

/-- The bounds on `variation`: between -1 and 2, and not negative once the
state is `STATE_RENDER_TEXTURE`. -/
def variation_ok (c : context) : Prop :=
  -1 ≤ c.variation ∧ c.variation ≤ 2 ∧ (c.state = .STATE_RENDER_TEXTURE → 0 ≤ c.variation)

/-- The three states that name a render mode. -/
def is_render_state (s : state) : Prop :=
  s = .STATE_RENDER_SQUARE ∨ s = .STATE_RENDER_TRIANGLE ∨ s = .STATE_RENDER_TEXTURE

/-- The world in which the loop is entered for the first time when start-up
obtained the handle `1` everywhere and left the render targets untouched. -/
def first_frame_world : World :=
  quiet_world (startup_context 1 1 (fun _ => render_target.zero))

/-! ## Key presses -/

/-- C1: when `variation` is one of -1, 0, 1, 2, a press of key "3" sets the
state to `STATE_RENDER_TEXTURE` and `variation` to `(variation + 1) mod 3`. -/
theorem process_keydown_key3 (w : World)
    (hv : w.ctx.variation = -1 ∨ w.ctx.variation = 0 ∨ w.ctx.variation = 1 ∨
      w.ctx.variation = 2) :
    (process_keydown SDLK_3 w).ctx.state = .STATE_RENDER_TEXTURE ∧
    (process_keydown SDLK_3 w).ctx.variation = (w.ctx.variation + 1) % 3 := by
  rcases hv with h | h | h | h <;>
    simp [process_keydown, SDLK_3, SDLK_ESCAPE, SDLK_1, SDLK_2, int32, h]

theorem process_keydown_key3_witness :
    first_frame_world.ctx.variation = -1 ∧
    (process_keydown SDLK_3 first_frame_world).ctx.state = .STATE_RENDER_TEXTURE ∧
    (process_keydown SDLK_3 first_frame_world).ctx.variation =
      (first_frame_world.ctx.variation + 1) % 3 :=
  ⟨rfl, process_keydown_key3 first_frame_world (Or.inl rfl)⟩

/-- C2: from a `variation` in -1, 0, 1, 2, three presses of key "3" leave
`variation` at the non-negative remainder of the starting value modulo 3;
from the start-up value -1 the three presses give 0, then 1, then 2. -/
theorem key3_three_presses (w : World)
    (hv : w.ctx.variation = -1 ∨ w.ctx.variation = 0 ∨ w.ctx.variation = 1 ∨
      w.ctx.variation = 2) :
    (process_keydown SDLK_3 (process_keydown SDLK_3 (process_keydown SDLK_3 w))).ctx.variation
      = w.ctx.variation % 3 ∧
    (w.ctx.variation = -1 →
      (process_keydown SDLK_3 w).ctx.variation = 0 ∧
      (process_keydown SDLK_3 (process_keydown SDLK_3 w)).ctx.variation = 1 ∧
      (process_keydown SDLK_3
        (process_keydown SDLK_3 (process_keydown SDLK_3 w))).ctx.variation = 2) := by
  rcases hv with h | h | h | h <;>
    simp [process_keydown, SDLK_3, SDLK_ESCAPE, SDLK_1, SDLK_2, int32, h]

theorem key3_three_presses_witness :
    (process_keydown SDLK_3 first_frame_world).ctx.variation = 0 ∧
    (process_keydown SDLK_3 (process_keydown SDLK_3 first_frame_world)).ctx.variation = 1 ∧
    (process_keydown SDLK_3
      (process_keydown SDLK_3 (process_keydown SDLK_3 first_frame_world))).ctx.variation = 2 :=
  (key3_three_presses first_frame_world (Or.inl rfl)).2 rfl

/-- C3: two presses of "w" give back the world they started from, and so do
two presses of "r"; a single press flips the flag concerned and neither key
touches `g__running`. -/
theorem toggle_twice_restores (w : World) :
    (process_keydown SDLK_w (process_keydown SDLK_w w)).ctx = w.ctx ∧
    (process_keydown SDLK_r (process_keydown SDLK_r w)).ctx = w.ctx ∧
    process_keydown SDLK_w (process_keydown SDLK_w w) = w ∧
    process_keydown SDLK_r (process_keydown SDLK_r w) = w ∧
    (process_keydown SDLK_w w).ctx.draw_wireframes = (!w.ctx.draw_wireframes) ∧
    (process_keydown SDLK_r w).ctx.rotate = (!w.ctx.rotate) ∧
    (process_keydown SDLK_w w).g__running = w.g__running ∧
    (process_keydown SDLK_r w).g__running = w.g__running := by
  simp [process_keydown, SDLK_w, SDLK_r, SDLK_3, SDLK_ESCAPE, SDLK_1, SDLK_2]

/-- C5: `process_keydown` yields a world for every key code, and from a
state that is one of SQUARE, TRIANGLE, TEXTURE every key code leads to a
state that is again one of these three. -/
theorem process_keydown_keeps_render_state (key : SDL_Keycode) (w : World)
    (h : is_render_state w.ctx.state) :
    (∃ w1 : World, process_keydown key w = w1) ∧
    is_render_state (process_keydown key w).ctx.state ∧
    (process_keydown key w).ctx.state ≠ .STATE_INVALID ∧
    (process_keydown key w).ctx.state ≠ .STATE_RENDER_MAX := by
  have key_fact : is_render_state (process_keydown key w).ctx.state := by
    unfold process_keydown
    split_ifs <;> simp_all [is_render_state]
  refine ⟨⟨_, rfl⟩, key_fact, ?_, ?_⟩ <;>
    · intro hbad
      rw [hbad] at key_fact
      simp [is_render_state] at key_fact

theorem process_keydown_keeps_render_state_witness :
    is_render_state (process_keydown SDLK_w
      { first_frame_world with ctx :=
        { first_frame_world.ctx with state := .STATE_RENDER_TRIANGLE } }).ctx.state :=
  (process_keydown_keeps_render_state SDLK_w
    { first_frame_world with ctx :=
      { first_frame_world.ctx with state := .STATE_RENDER_TRIANGLE } }
    (Or.inr (Or.inl rfl))).2.1

/-- C6: what a key press may change.  "1" and "2" replace `state` only, "3"
replaces `state` and `variation` only, "w" replaces `draw_wireframes` only,
"r" replaces `rotate` only, escape replaces `g__running` only, and any other
key code leaves the context and `g__running` as they were (it only adds
output). -/
theorem process_keydown_frame (key : SDL_Keycode) (w : World) :
    (key = SDLK_1 ∨ key = SDLK_2 →
      process_keydown key w =
        { w with ctx := { w.ctx with state := (process_keydown key w).ctx.state } }) ∧
    (key = SDLK_3 →
      process_keydown key w =
        { w with ctx := { w.ctx with state := (process_keydown key w).ctx.state,
                                     variation := (process_keydown key w).ctx.variation } }) ∧
    (key = SDLK_w →
      process_keydown key w =
        { w with ctx :=
          { w.ctx with draw_wireframes := (process_keydown key w).ctx.draw_wireframes } }) ∧
    (key = SDLK_r →
      process_keydown key w =
        { w with ctx := { w.ctx with rotate := (process_keydown key w).ctx.rotate } }) ∧
    (key = SDLK_ESCAPE →
      process_keydown key w = { w with g__running := (process_keydown key w).g__running }) ∧
    (key ≠ SDLK_1 → key ≠ SDLK_2 → key ≠ SDLK_3 → key ≠ SDLK_w → key ≠ SDLK_r →
      key ≠ SDLK_ESCAPE →
      (process_keydown key w).ctx = w.ctx ∧
      (process_keydown key w).g__running = w.g__running ∧
      process_keydown key w = { w with out := (process_keydown key w).out }) := by
  refine ⟨?_, ?_, ?_, ?_, ?_, ?_⟩
  · rintro (h | h) <;> subst h <;>
      simp [process_keydown, SDLK_w, SDLK_r, SDLK_3, SDLK_ESCAPE, SDLK_1, SDLK_2]
  · intro h
    subst h
    simp [process_keydown, SDLK_w, SDLK_r, SDLK_3, SDLK_ESCAPE, SDLK_1, SDLK_2]
  · intro h
    subst h
    simp [process_keydown, SDLK_w, SDLK_r, SDLK_3, SDLK_ESCAPE, SDLK_1, SDLK_2]
  · intro h
    subst h
    simp [process_keydown, SDLK_w, SDLK_r, SDLK_3, SDLK_ESCAPE, SDLK_1, SDLK_2]
  · intro h
    subst h
    simp [process_keydown, SDLK_w, SDLK_r, SDLK_3, SDLK_ESCAPE, SDLK_1, SDLK_2]
  · intro h1 h2 h3 h4 h5 h6
    simp [process_keydown, h1, h2, h3, h4, h5, h6]

theorem process_keydown_frame_witness :
    process_keydown SDLK_3 first_frame_world =
      { first_frame_world with ctx :=
        { first_frame_world.ctx with
          state := (process_keydown SDLK_3 first_frame_world).ctx.state,
          variation := (process_keydown SDLK_3 first_frame_world).ctx.variation } } :=
  (process_keydown_frame SDLK_3 first_frame_world).2.1 rfl

/-! ## Reasoning about computations in `M` -/

theorem bind_run {α β : Type} (x : M α) (f : α → M β) (w : World) :
    (x >>= f) w = match x w with
      | .ok a w1 => f a w1
      | .abort w1 => .abort w1 := rfl

theorem pure_run {α : Type} (a : α) (w : World) : (pure a : M α) w = .ok a w := rfl

theorem steady_refl (w : World) : Steady w w := ⟨rfl, rfl, rfl, rfl, rfl⟩

theorem steady_trans {w w1 w2 : World} (h1 : Steady w w1) (h2 : Steady w1 w2) : Steady w w2 := by
  obtain ⟨a1, a2, a3, a4, a5⟩ := h1
  obtain ⟨b1, b2, b3, b4, b5⟩ := h2
  exact ⟨b1.trans a1, b2.trans a2, b3.trans a3, b4.trans a4, b5.trans a5⟩

theorem keeps_pure {α : Type} (a : α) : Keeps (pure a : M α) := fun w => steady_refl w

theorem keeps_bind {α β : Type} {x : M α} {f : α → M β} (hx : Keeps x) (hf : ∀ a, Keeps (f a)) :
    Keeps (x >>= f) := by
  intro w
  have h := hx w
  rw [bind_run]
  cases hxw : x w with
  | ok a w1 =>
    rw [hxw] at h
    exact steady_trans h (hf a w1)
  | abort w1 =>
    rw [hxw] at h
    exact h

theorem keeps_ite {α : Type} {c : Prop} [Decidable c] {x y : M α} (hx : Keeps x) (hy : Keeps y) :
    Keeps (if c then x else y) := by
  split_ifs
  · exact hx
  · exact hy

theorem keeps_say (l : Line) : Keeps (say l) := fun _ => ⟨rfl, rfl, rfl, rfl, rfl⟩

theorem keeps_fault {α : Type} : Keeps (fault : M α) := fun w => steady_refl w

theorem keeps_get_ctx : Keeps get_ctx := fun w => steady_refl w

theorem keeps_ext (fn : String) (args : List Arg) : Keeps (ext fn args) :=
  fun _ => ⟨rfl, rfl, rfl, rfl, rfl⟩

theorem keeps_ext_u32 (fn : String) (args : List Arg) : Keeps (ext_u32 fn args) :=
  keeps_bind (keeps_ext fn args) (fun _ => keeps_pure _)

theorem keeps_ext_i32 (fn : String) (args : List Arg) : Keeps (ext_i32 fn args) :=
  keeps_bind (keeps_ext fn args) (fun _ => keeps_pure _)

theorem keeps_ASSERT (func : String) (line : Nat) (text : String) (b : Bool) :
    Keeps (ASSERT func line text b) := by
  intro w
  unfold ASSERT
  split_ifs
  · exact steady_refl w
  · exact ⟨rfl, rfl, rfl, rfl, rfl⟩

/-- What the error loop computes: the flag stays as it was only for an empty
queue, the queue is emptied, and one line is written for each entry. -/
theorem gl_check_error_loop_eq (func file : String) (line : Nat) (q : List GLerror) :
    ∀ (ok : Bool) (w : World),
      gl_check_error_loop func file line q ok w =
        (ok && q.isEmpty,
          { w with gl_errors := [],
                   out := w.out ++ q.map (fun e => gl_error_line func file line e.code) }) := by
  induction q with
  | nil => intro ok w; simp [gl_check_error_loop]
  | cons e q ih =>
    intro ok w
    simp [gl_check_error_loop, e.is_error, ih]

theorem gl_check_error_eq (func file : String) (line : Nat) (w : World) :
    gl_check_error func file line w =
      .ok w.gl_errors.isEmpty
        { w with gl_errors := [],
                 out := w.out ++ w.gl_errors.map (fun e => gl_error_line func file line e.code) } := by
  simp [gl_check_error, gl_check_error_loop_eq]

theorem keeps_gl_check_error (func file : String) (line : Nat) :
    Keeps (gl_check_error func file line) := by
  intro w
  rw [gl_check_error_eq]
  exact ⟨rfl, rfl, rfl, rfl, rfl⟩

theorem keeps_GLCALL {α : Type} (func : String) (line : Nat) (text : String) {expr : M α}
    (h : Keeps expr) : Keeps (GLCALL func line text expr) :=
  keeps_bind h (fun _ => keeps_bind (keeps_gl_check_error _ _ _)
    (fun _ => keeps_bind (keeps_ASSERT _ _ _ _) (fun _ => keeps_pure _)))

theorem keeps_load_shader_ids (rt : render_target) (i : Int) : Keeps (load_shader_ids rt i) := by
  unfold load_shader_ids
  split_ifs
  · exact keeps_pure _
  · exact keeps_fault

/-- A computation that first records a render call and then only talks to
the driver ends, in every case, with exactly that one call added. -/
theorem enter_then_keeps {β : Type} (rc : RenderCall) (f : Unit → M β) (hf : Keeps (f ()))
    (w : World) :
    Steady { w with renders := w.renders ++ [rc] } ((enter rc >>= f) w).world :=
  hf { w with renders := w.renders ++ [rc] }

theorem square_render_world (r : render_target) (w : World) :
    Steady { w with renders := w.renders ++ [.square_render r] } (square_render r w).world := by
  unfold square_render
  apply enter_then_keeps
  repeat' with_reducible first
    | exact keeps_pure _
    | exact keeps_ext _ _
    | exact keeps_ext_u32 _ _
    | exact keeps_ext_i32 _ _
    | apply keeps_GLCALL
    | apply keeps_bind
    | intro _

theorem triangle_render_world (r : render_target) (w : World) :
    Steady { w with renders := w.renders ++ [.triangle_render r] }
      (triangle_render r w).world := by
  unfold triangle_render
  apply enter_then_keeps
  repeat' with_reducible first
    | exact keeps_pure _
    | exact keeps_ext _ _
    | exact keeps_ext_u32 _ _
    | exact keeps_ext_i32 _ _
    | apply keeps_GLCALL
    | apply keeps_bind
    | intro _

theorem texture_render_world (r : render_target) (w : World) :
    Steady { w with renders := w.renders ++ [.texture_render r] }
      (texture_render r w).world := by
  unfold texture_render
  apply enter_then_keeps
  repeat' with_reducible first
    | exact keeps_pure _
    | exact keeps_get_ctx
    | exact keeps_load_shader_ids _ _
    | exact keeps_ext _ _
    | exact keeps_ext_u32 _ _
    | exact keeps_ext_i32 _ _
    | apply keeps_GLCALL
    | apply keeps_ite
    | apply keeps_bind
    | intro _

theorem sat_bind {α β : Type} (x : M α) (f : α → M β) (w : World) (Q : β → World → Prop)
    (A : World → Prop) :
    sat (x >>= f) w Q A ↔ sat x w (fun a w1 => sat (f a) w1 Q A) A := by
  unfold sat
  rw [bind_run]
  cases x w <;> rfl

theorem sat_pure {α : Type} (a : α) (w : World) (Q : α → World → Prop) (A : World → Prop) :
    sat (pure a) w Q A ↔ Q a w := Iff.rfl

/-- Sequencing after a computation of which only a property of the world it
ends in is known. -/
theorem sat_bind_world {α β : Type} {x : M α} {f : α → M β} {w : World} {Q : β → World → Prop}
    {A : World → Prop} (P : World → Prop) (hx : P (x w).world)
    (hf : ∀ a w1, P w1 → sat (f a) w1 Q A) (hA : ∀ w1, P w1 → A w1) :
    sat (x >>= f) w Q A := by
  rw [sat_bind]
  unfold sat
  cases hxw : x w with
  | ok a w1 =>
    rw [hxw] at hx
    exact hf a w1 hx
  | abort w1 =>
    rw [hxw] at hx
    exact hA w1 hx

theorem sat_of_world {α : Type} {m : M α} {w : World} (P : World → Prop) (h : P (m w).world) :
    sat m w (fun _ w1 => P w1) P := by
  unfold sat
  cases hm : m w with
  | ok a w1 => rw [hm] at h; exact h
  | abort w1 => rw [hm] at h; exact h

theorem process_keydown_steady (key : SDL_Keycode) (w : World) :
    (process_keydown key w).renders = w.renders ∧
    (w.g__running = false → (process_keydown key w).g__running = false) := by
  unfold process_keydown
  split_ifs <;> simp

theorem handle_event_steady (e : SDL_Event) (w : World) :
    (handle_event e w).renders = w.renders ∧
    (w.g__running = false → (handle_event e w).g__running = false) := by
  unfold handle_event
  split_ifs
  · simp
  · exact process_keydown_steady e.sym w
  · simp

theorem handle_event_quit (e : SDL_Event) (w : World) (h : is_quit_request e = true) :
    (handle_event e w).g__running = false := by
  unfold is_quit_request at h
  unfold handle_event
  by_cases h1 : e.type = SDL_QUIT
  · simp [h1]
  · have h2 : e.type = SDL_KEYDOWN ∧ e.sym = SDLK_ESCAPE := by simpa [h1] using h
    simp [h1, h2.1, h2.2, process_keydown]

theorem handle_input_loop_steady (es : List SDL_Event) :
    ∀ w : World, (handle_input_loop es w).renders = w.renders ∧
      (w.g__running = false → (handle_input_loop es w).g__running = false) := by
  induction es with
  | nil => intro w; simp [handle_input_loop]
  | cons e rest ih =>
    intro w
    have h1 := handle_event_steady e { w with events := rest }
    have h2 := ih (handle_event e { w with events := rest })
    simp only [handle_input_loop]
    exact ⟨h2.1.trans h1.1, fun h => h2.2 (h1.2 h)⟩

/-- Once an event of the batch asks to stop, nothing later in the batch
sets `g__running` again. -/
theorem handle_input_loop_quit (es : List SDL_Event) :
    ∀ w : World, (∃ e ∈ es, is_quit_request e = true) →
      (handle_input_loop es w).g__running = false := by
  induction es with
  | nil => intro w h; simp at h
  | cons e rest ih =>
    intro w h
    simp only [handle_input_loop]
    by_cases he : is_quit_request e = true
    · exact (handle_input_loop_steady rest _).2 (handle_event_quit e _ he)
    · apply ih
      obtain ⟨e1, hmem, hq⟩ := h
      rcases List.mem_cons.1 hmem with h1 | h1
      · exact absurd (h1 ▸ hq) he
      · exact ⟨e1, h1, hq⟩

theorem render_dispatch_world (ctx : context) (w : World) :
    Steady { w with renders := w.renders ++ render_calls_of ctx }
      (render_dispatch ctx (target_at ctx ctx.state.toNat) w).world := by
  unfold render_dispatch render_calls_of
  cases h : ctx.state
  · simpa using steady_refl w
  · exact square_render_world _ w
  · exact triangle_render_world _ w
  · exact texture_render_world _ w
  · simpa using steady_refl w

/-- One pass of the loop: `g__running` is what `handle_input` left, and the
render calls made are those of the `switch` for the state `handle_input`
left; a pass cut short by a fault may have made none yet. -/
theorem loop_body_sat (w : World) :
    sat loop_body w
      (fun _ w1 => w1.g__running = (handle_input w).g__running ∧
        w1.renders = w.renders ++ render_calls_of (handle_input w).ctx)
      (fun w1 => w1.g__running = (handle_input w).g__running ∧
        (w1.renders = w.renders ∨
          w1.renders = w.renders ++ render_calls_of (handle_input w).ctx)) := by
  have hr : (handle_input w).renders = w.renders := (handle_input_loop_steady _ w).1
  unfold loop_body
  rw [sat_bind]
  show sat _ (handle_input w) _ _
  apply sat_bind_world (Steady (handle_input w))
  · exact keeps_GLCALL _ _ _ (keeps_ext _ _) _
  swap
  · rintro w1 ⟨-, h2, -, h4, -⟩
    exact ⟨h2, Or.inl (h4.trans hr)⟩
  intro _ w1 s1
  apply sat_bind_world (Steady w1)
  · exact keeps_GLCALL _ _ _ (keeps_ext _ _) _
  swap
  · rintro w2 ⟨-, h2, -, h4, -⟩
    exact ⟨h2.trans s1.2.1, Or.inl ((h4.trans s1.2.2.2.1).trans hr)⟩
  intro _ w2 s2
  have s12 := steady_trans s1 s2
  rw [sat_bind]
  show sat _ w2 _ _
  apply sat_bind_world (Steady w2)
  · exact keeps_GLCALL _ _ _ (keeps_ext _ _) _
  swap
  · rintro w3 ⟨-, h2, -, h4, -⟩
    exact ⟨h2.trans s12.2.1, Or.inl ((h4.trans s12.2.2.2.1).trans hr)⟩
  intro _ w3 s3
  have s13 := steady_trans s12 s3
  have hctx : w2.ctx = (handle_input w).ctx := s12.1
  apply sat_bind_world (Steady { w3 with renders := w3.renders ++ render_calls_of w2.ctx })
  · exact render_dispatch_world w2.ctx w3
  swap
  · rintro w4 ⟨-, h2, -, h4, -⟩
    refine ⟨h2.trans s13.2.1, Or.inr ?_⟩
    rw [h4]
    show w3.renders ++ _ = _
    rw [s13.2.2.2.1, hr, hctx]
  intro _ w4 s4
  apply sat_bind_world (Steady w4)
  · exact keeps_ext _ _ _
  swap
  · rintro w5 ⟨-, h2, -, h4, -⟩
    refine ⟨(h2.trans s4.2.1).trans s13.2.1, Or.inr ?_⟩
    rw [h4, s4.2.2.2.1]
    show w3.renders ++ _ = _
    rw [s13.2.2.2.1, hr, hctx]
  intro _ w5 s5
  apply sat_bind_world (Steady w5)
  · exact keeps_ext _ _ _
  swap
  · rintro w6 ⟨-, h2, -, h4, -⟩
    refine ⟨((h2.trans s5.2.1).trans s4.2.1).trans s13.2.1, Or.inr ?_⟩
    rw [h4, s5.2.2.2.1, s4.2.2.2.1]
    show w3.renders ++ _ = _
    rw [s13.2.2.2.1, hr, hctx]
  intro _ w6 s6
  rw [sat_pure]
  refine ⟨(((s6.2.1).trans s5.2.1).trans s4.2.1).trans s13.2.1, ?_⟩
  rw [s6.2.2.2.1, s5.2.2.2.1, s4.2.2.2.1]
  show w3.renders ++ _ = _
  rw [s13.2.2.2.1, hr, hctx]

/-! ## The frame loop -/

theorem main_loop_step (fuel : Nat) (arrivals : Nat → List SDL_Event) (n : Nat) (w : World)
    (hrun : w.g__running = true) :
    main_loop (fuel + 1) arrivals n w =
      match loop_body { w with events := w.events ++ arrivals n } with
      | .ok _ w1 => main_loop fuel arrivals (n + 1) w1
      | .abort w1 => some (.abort w1) := by
  rw [main_loop, if_pos hrun]

theorem main_loop_stop (fuel : Nat) (arrivals : Nat → List SDL_Event) (n : Nat) (w : World)
    (hrun : w.g__running = false) :
    main_loop (fuel + 1) arrivals n w = some (.ok () w) := by
  rw [main_loop]
  simp [hrun]

/-- C4: when the events pending at the top of a pass of the frame loop
contain a window-close event or an escape key-down, `handle_input` ends with
`g__running` false whatever follows in the batch; a loop that was running
then executes exactly this one pass and leaves at the next test of
`g__running` (or faults inside the pass), so the render calls of the whole
loop are those of this pass: at most one, and none after it. -/
theorem quit_request_ends_loop (w : World) (arrivals : Nat → List SDL_Event) (n fuel : Nat)
    (hq : ∃ e ∈ w.events ++ arrivals n, is_quit_request e = true) :
    (handle_input { w with events := w.events ++ arrivals n }).g__running = false ∧
    (w.g__running = true →
      main_loop (fuel + 2) arrivals n w =
        some (loop_body { w with events := w.events ++ arrivals n })) ∧
    (loop_body { w with events := w.events ++ arrivals n }).world.g__running = false ∧
    ((loop_body { w with events := w.events ++ arrivals n }).world.renders = w.renders ∨
      (loop_body { w with events := w.events ++ arrivals n }).world.renders =
        w.renders ++
          render_calls_of (handle_input { w with events := w.events ++ arrivals n }).ctx) ∧
    (render_calls_of
      (handle_input { w with events := w.events ++ arrivals n }).ctx).length ≤ 1 := by
  have hstop : (handle_input { w with events := w.events ++ arrivals n }).g__running = false :=
    handle_input_loop_quit _ _ hq
  have hsat := loop_body_sat { w with events := w.events ++ arrivals n }
  unfold sat at hsat
  refine ⟨hstop, ?_, ?_, ?_, ?_⟩
  · intro hrun
    rw [show fuel + 2 = (fuel + 1) + 1 from rfl, main_loop_step _ _ _ _ hrun]
    cases hb : loop_body { w with events := w.events ++ arrivals n } with
    | ok a w1 =>
      rw [hb] at hsat
      have hw1 : w1.g__running = false := hsat.1.trans hstop
      show main_loop (fuel + 1) arrivals (n + 1) w1 = _
      rw [main_loop_stop _ _ _ _ hw1]
    | abort w1 => rfl
  · cases hb : loop_body { w with events := w.events ++ arrivals n } with
    | ok a w1 => rw [hb] at hsat; exact hsat.1.trans hstop
    | abort w1 => rw [hb] at hsat; exact hsat.1.trans hstop
  · cases hb : loop_body { w with events := w.events ++ arrivals n } with
    | ok a w1 => rw [hb] at hsat; exact Or.inr hsat.2
    | abort w1 => rw [hb] at hsat; exact hsat.2
  · unfold render_calls_of
    split <;> simp

theorem quit_request_ends_loop_witness :
    main_loop 2 (fun _ => []) 0 { first_frame_world with events := [⟨SDL_QUIT, 0⟩] } =
      some (loop_body { first_frame_world with events := [⟨SDL_QUIT, 0⟩] ++ [] }) :=
  (quit_request_ends_loop { first_frame_world with events := [⟨SDL_QUIT, 0⟩] } (fun _ => []) 0 0
    ⟨⟨SDL_QUIT, 0⟩, by simp, rfl⟩).2.1 rfl

set_option maxRecDepth 100000 in
/-- C8, as stated, fails at program start: in the world in which `main`
enters its loop the state is `STATE_INVALID`, and the first pass of the loop
runs to its end without entering any render function. -/
theorem first_pass_renders_nothing :
    (main_startup boot_world).aborted = false ∧
    booted_world.ctx.state = .STATE_INVALID ∧
    (loop_body booted_world).aborted = false ∧
    (loop_body booted_world).world.renders = [] :=
  ⟨rfl, rfl, rfl, rfl⟩

/-- C8, amended: the `switch` of the frame loop enters the render function
of the current state, with the render target of that state, exactly once
when the state is SQUARE, TRIANGLE or TEXTURE, and enters no render function
when the state is `STATE_INVALID` or `STATE_RENDER_MAX`; a pass of the loop
that runs to its end has made exactly these render calls, for the state left
by `handle_input`. -/
theorem frame_renders_by_state (w : World) :
    (render_dispatch w.ctx (target_at w.ctx w.ctx.state.toNat) w).world.renders =
      w.renders ++ render_calls_of w.ctx ∧
    ((loop_body w).aborted = false →
      (loop_body w).world.renders = w.renders ++ render_calls_of (handle_input w).ctx) ∧
    (∀ h : w.ctx.state.toNat < 4,
      target_at w.ctx w.ctx.state.toNat = some (w.ctx.render_targets ⟨w.ctx.state.toNat, h⟩)) ∧
    (w.ctx.state = .STATE_RENDER_SQUARE →
      render_calls_of w.ctx = [.square_render (w.ctx.render_targets 1)]) ∧
    (w.ctx.state = .STATE_RENDER_TRIANGLE →
      render_calls_of w.ctx = [.triangle_render (w.ctx.render_targets 2)]) ∧
    (w.ctx.state = .STATE_RENDER_TEXTURE →
      render_calls_of w.ctx = [.texture_render (w.ctx.render_targets 3)]) ∧
    (w.ctx.state = .STATE_INVALID ∨ w.ctx.state = .STATE_RENDER_MAX →
      render_calls_of w.ctx = []) := by
  refine ⟨?_, ?_, ?_, ?_, ?_, ?_, ?_⟩
  · have h := render_dispatch_world w.ctx w
    exact h.2.2.2.1
  · intro hok
    have hsat := loop_body_sat w
    unfold sat at hsat
    cases hb : loop_body w with
    | ok a w1 => rw [hb] at hsat; exact hsat.2
    | abort w1 => rw [hb] at hok; simp [Res.aborted] at hok
  · intro h
    simp [target_at, h]
  · intro h
    simp [render_calls_of, h]
  · intro h
    simp [render_calls_of, h]
  · intro h
    simp [render_calls_of, h]
  · rintro (h | h) <;> simp [render_calls_of, h]

theorem frame_renders_by_state_witness :
    render_calls_of
        { first_frame_world with ctx :=
          { first_frame_world.ctx with state := .STATE_RENDER_TRIANGLE } }.ctx =
      [.triangle_render (first_frame_world.ctx.render_targets 2)] :=
  (frame_renders_by_state
    { first_frame_world with ctx :=
      { first_frame_world.ctx with state := .STATE_RENDER_TRIANGLE } }).2.2.2.2.1 rfl

/-! ## Diagnostics -/

/-- C10: with the driver's error queue a finite list, `gl_check_error`
returns, leaves the queue empty, writes one line for each error that was
queued, and returns true exactly when the queue was empty on entry; hence a
call wrapped in `GLCALL` faults exactly when an error is pending once the
call itself has returned. -/
theorem gl_check_error_drains_queue (func file : String) (line : Nat) (w : World) :
    (∃ ok w1, gl_check_error func file line w = .ok ok w1 ∧
      w1.gl_errors = [] ∧
      w1.out = w.out ++ w.gl_errors.map (fun e => gl_error_line func file line e.code) ∧
      w1.out.length = w.out.length + w.gl_errors.length ∧
      (ok = true ↔ w.gl_errors = [])) ∧
    (∀ (α : Type) (text : String) (expr : M α),
      match expr w with
      | .ok _ w1 => ((GLCALL func line text expr w).aborted = true ↔ w1.gl_errors ≠ [])
      | .abort _ => (GLCALL func line text expr w).aborted = true) := by
  constructor
  · refine ⟨_, _, gl_check_error_eq func file line w, rfl, rfl, ?_, ?_⟩
    · simp
    · simp [List.isEmpty_iff]
  · intro α text expr
    cases hx : expr w with
    | ok a w1 =>
      show (GLCALL func line text expr w).aborted = true ↔ w1.gl_errors ≠ []
      unfold GLCALL
      rw [bind_run, hx]
      show ((gl_check_error _ _ _ >>= _) w1).aborted = true ↔ _
      rw [bind_run, gl_check_error_eq]
      show ((ASSERT _ _ _ _ >>= _) _).aborted = true ↔ _
      rw [bind_run]
      unfold ASSERT
      cases hq : w1.gl_errors <;> simp [Res.aborted, pure_run]
    | abort w1 =>
      show (GLCALL func line text expr w).aborted = true
      unfold GLCALL
      rw [bind_run, hx]
      rfl

theorem echo_refl (u u2 : World) : Echo u u2 u u2 := ⟨[], [], by simp, by simp, by simp, by simp⟩

theorem echo_trans {u u2 v v2 x x2 : World} (h1 : Echo u u2 v v2) (h2 : Echo v v2 x x2) :
    Echo u u2 x x2 := by
  obtain ⟨d1, c1, a1, a2, a3, a4⟩ := h1
  obtain ⟨d2, c2, b1, b2, b3, b4⟩ := h2
  refine ⟨d1 ++ d2, c1 ++ c2, ?_, ?_, ?_, ?_⟩
  · rw [b1, a1, List.append_assoc]
  · rw [b2, a2, List.append_assoc]
  · rw [b3, a3, List.append_assoc]
  · rw [b4, a4, List.append_assoc]

theorem det_pure {α : Type} (a : α) : Det (pure a : M α) :=
  fun u u2 h => ⟨rfl, h, echo_refl u u2⟩

theorem det_fault {α : Type} : Det (fault : M α) :=
  fun u u2 _ => echo_refl u u2

theorem det_bind {α β : Type} {x : M α} {f : α → M β} (hx : Det x) (hf : ∀ a, Det (f a)) :
    Det (x >>= f) := by
  intro u u2 h
  have h1 := hx u u2 h
  rw [bind_run, bind_run]
  cases hxu : x u with
  | ok a v =>
    cases hxu2 : x u2 with
    | ok a2 v2 =>
      rw [hxu, hxu2] at h1
      obtain ⟨ha, hs, he⟩ := h1
      subst ha
      have h2 := hf a v v2 hs
      show Agree u u2 (f a v) (f a v2)
      cases hfv : f a v with
      | ok b x1 =>
        cases hfv2 : f a v2 with
        | ok b2 x2 =>
          rw [hfv, hfv2] at h2
          exact ⟨h2.1, h2.2.1, echo_trans he h2.2.2⟩
        | abort x2 => rw [hfv, hfv2] at h2; exact h2.elim
      | abort x1 =>
        cases hfv2 : f a v2 with
        | ok b2 x2 => rw [hfv, hfv2] at h2; exact h2.elim
        | abort x2 =>
          rw [hfv, hfv2] at h2
          exact echo_trans he h2
    | abort v2 => rw [hxu, hxu2] at h1; exact h1.elim
  | abort v =>
    cases hxu2 : x u2 with
    | ok a2 v2 => rw [hxu, hxu2] at h1; exact h1.elim
    | abort v2 => rw [hxu, hxu2] at h1; exact h1

theorem det_ite {α : Type} {c : Prop} [Decidable c] {x y : M α} (hx : Det x) (hy : Det y) :
    Det (if c then x else y) := by
  split_ifs
  · exact hx
  · exact hy

theorem det_say (l : Line) : Det (say l) :=
  fun u u2 h => ⟨rfl, h, [l], [], rfl, rfl, by simp, by simp⟩

theorem det_ext (fn : String) (args : List Arg) : Det (ext fn args) := by
  intro u u2 h
  have h0 := h.2 0
  simp only [Nat.add_zero] at h0
  refine ⟨h0, ⟨?_, ?_⟩, [], [⟨fn, args⟩], by simp, by simp, rfl, rfl⟩
  · show u.gl_errors ++ _ = u2.gl_errors ++ _
    rw [h.1, h0]
  · intro j
    show u.driver ((u.calls ++ [_]).length + j) = u2.driver ((u2.calls ++ [_]).length + j)
    have hj := h.2 (1 + j)
    simpa [Nat.add_assoc] using hj

theorem det_ext_u32 (fn : String) (args : List Arg) : Det (ext_u32 fn args) :=
  det_bind (det_ext fn args) (fun _ => det_pure _)

theorem det_ext_i32 (fn : String) (args : List Arg) : Det (ext_i32 fn args) :=
  det_bind (det_ext fn args) (fun _ => det_pure _)

theorem det_ASSERT (func : String) (line : Nat) (text : String) (b : Bool) :
    Det (ASSERT func line text b) := by
  intro u u2 h
  unfold ASSERT
  cases b
  · exact ⟨[_], [], rfl, rfl, by simp, by simp⟩
  · exact ⟨rfl, h, echo_refl u u2⟩

theorem det_gl_check_error (func file : String) (line : Nat) : Det (gl_check_error func file line) := by
  intro u u2 h
  rw [gl_check_error_eq, gl_check_error_eq]
  refine ⟨by rw [h.1], ⟨rfl, h.2⟩, _, [], rfl, ?_, by simp, by simp⟩
  rw [h.1]

theorem det_GLCALL {α : Type} (func : String) (line : Nat) (text : String) {expr : M α}
    (h : Det expr) : Det (GLCALL func line text expr) :=
  det_bind h (fun _ => det_bind (det_gl_check_error _ _ _)
    (fun _ => det_bind (det_ASSERT _ _ _ _) (fun _ => det_pure _)))

theorem det_shader_compile (type : Nat) (source : String) : Det (shader_compile type source) := by
  unfold shader_compile
  repeat' with_reducible first
    | exact det_pure _
    | exact det_say _
    | exact det_ext _ _
    | exact det_ext_u32 _ _
    | exact det_ext_i32 _ _
    | exact det_ASSERT _ _ _ _
    | apply det_GLCALL
    | apply det_ite
    | apply det_bind
    | intro _

theorem sat_bind_skip {α β : Type} {x : M α} {f : α → M β} {w : World} {Q : β → World → Prop}
    (h : ∀ a w1, sat (f a) w1 Q (fun _ => True)) : sat (x >>= f) w Q (fun _ => True) :=
  sat_bind_world (fun _ => True) trivial (fun a w1 _ => h a w1) (fun _ _ => trivial)

theorem sat_ASSERT_bind {β : Type} {func : String} {line : Nat} {text : String} {b : Bool}
    {f : Unit → M β} {w : World} {Q : β → World → Prop}
    (h : b = true → sat (f ()) w Q (fun _ => True)) :
    sat (ASSERT func line text b >>= f) w Q (fun _ => True) := by
  rw [sat_bind]
  unfold sat ASSERT
  cases b
  · trivial
  · exact h rfl

theorem sat_value {α : Type} {m : M α} {w : World} {Q : α → Prop}
    (h : sat m w (fun a _ => Q a) (fun _ => True)) (a : α) (ha : (m w).value? = some a) : Q a := by
  unfold sat at h
  cases hm : m w with
  | ok a1 w1 =>
    rw [hm] at h ha
    simp only [Res.value?, Option.some.injEq] at ha
    exact ha ▸ h
  | abort w1 =>
    rw [hm] at ha
    simp [Res.value?] at ha

theorem sat_aborted {α : Type} {m : M α} {w : World}
    (h : sat m w (fun _ _ => False) (fun _ => True)) : (m w).aborted = true := by
  unfold sat at h
  cases hm : m w with
  | ok a1 w1 => rw [hm] at h; exact h.elim
  | abort w1 => rfl

/-- A checked call into the driver leaves the script of replies alone and
advances the record of calls by one, whether or not the check passes. -/
theorem GLCALL_ext_counts (func : String) (line : Nat) (text fn : String) (args : List Arg)
    (w : World) :
    (GLCALL func line text (ext fn args) w).world.driver = w.driver ∧
    (GLCALL func line text (ext fn args) w).world.calls.length = w.calls.length + 1 := by
  simp only [GLCALL, bind_run, ext, gl_check_error_eq, ASSERT, pure_run]
  split_ifs <;> simp [Res.world]

theorem GLCALL_ext_u32_counts (func : String) (line : Nat) (text fn : String) (args : List Arg)
    (w : World) :
    (GLCALL func line text (ext_u32 fn args) w).world.driver = w.driver ∧
    (GLCALL func line text (ext_u32 fn args) w).world.calls.length = w.calls.length + 1 := by
  simp only [GLCALL, bind_run, ext_u32, ext, gl_check_error_eq, ASSERT, pure_run]
  split_ifs <;> simp [Res.world]

theorem sat_pure_bind {α β : Type} (a : α) (f : α → M β) (w : World) (Q : β → World → Prop)
    (A : World → Prop) : sat (pure a >>= f) w Q A ↔ sat (f a) w Q A := Iff.rfl

theorem sat_ext_i32_bind {β : Type} (fn : String) (args : List Arg) (f : Int → M β) (w : World)
    (Q : β → World → Prop) (A : World → Prop) :
    sat (ext_i32 fn args >>= f) w Q A ↔
      sat (f (int32 (w.driver w.calls.length).val))
        { w with calls := w.calls ++ [⟨fn, args⟩],
                 gl_errors := w.gl_errors ++ (w.driver w.calls.length).raised } Q A := Iff.rfl

theorem sat_ite {α : Type} {c : Prop} [Decidable c] {x y : M α} {w : World}
    {Q : α → World → Prop} {A : World → Prop} (hx : c → sat x w Q A) (hy : ¬c → sat y w Q A) :
    sat (if c then x else y) w Q A := by
  split_ifs with h
  · exact hx h
  · exact hy h

theorem shader_compile_nonzero (type : Nat) (source : String) (w : World) :
    sat (shader_compile type source) w (fun id _ => id ≠ 0) (fun _ => True) := by
  unfold shader_compile
  dsimp only
  repeat' with_reducible first
    | apply sat_ASSERT_bind
    | apply sat_bind_skip
    | apply sat_ite
    | intro _
  all_goals
    rw [sat_pure]
    simp_all

theorem shader_compile_failure_faults (type : Nat) (source : String) (w : World)
    (h : int32 (w.driver (w.calls.length + 3)).val = GL_FALSE) :
    sat (shader_compile type source) w (fun _ _ => False) (fun _ => True) := by
  unfold shader_compile
  dsimp only
  apply sat_bind_world
    (fun w1 => w1.driver = w.driver ∧ w1.calls.length = w.calls.length + 1)
    (GLCALL_ext_u32_counts _ _ _ _ _ w) ?_ (fun _ _ => trivial)
  intro id w1 h1
  apply sat_bind_world
    (fun w2 => w2.driver = w1.driver ∧ w2.calls.length = w1.calls.length + 1)
    (GLCALL_ext_counts _ _ _ _ _ w1) ?_ (fun _ _ => trivial)
  intro _ w2 h2
  apply sat_bind_world
    (fun w3 => w3.driver = w2.driver ∧ w3.calls.length = w2.calls.length + 1)
    (GLCALL_ext_counts _ _ _ _ _ w2) ?_ (fun _ _ => trivial)
  intro _ w3 h3
  have hd : w3.driver w3.calls.length = w.driver (w.calls.length + 3) := by
    rw [h3.1, h2.1, h1.1, h3.2, h2.2, h1.2]
  rw [sat_ext_i32_bind, hd, h, if_pos rfl]
  repeat' with_reducible first
    | rw [sat_pure_bind]
    | apply sat_ASSERT_bind
    | apply sat_bind_skip
    | intro _
  rename_i hz
  simp at hz

/-- C9: `shader_compile` returns only with a non-zero handle.  When the
driver reports that compilation failed (the status query, which is the
fourth call, answers `GL_FALSE`) the function never returns; if the three
checked calls before the query raised no error, it writes the driver's
diagnostic text, deletes the shader, and then faults in `ASSERT (id != 0)`.
The outcome is a function of the driver's answers: two runs that meet the
same pending errors and the same replies end alike. -/
theorem shader_compile_outcome (type : Nat) (source : String) (w : World) :
    (∀ id, (shader_compile type source w).value? = some id → id ≠ 0) ∧
    (int32 (w.driver (w.calls.length + 3)).val = GL_FALSE →
      (shader_compile type source w).aborted = true) ∧
    (w.gl_errors = [] → (w.driver w.calls.length).raised = [] →
      (w.driver (w.calls.length + 1)).raised = [] →
      (w.driver (w.calls.length + 2)).raised = [] →
      int32 (w.driver (w.calls.length + 3)).val = GL_FALSE →
      ∃ w1, shader_compile type source w = .abort w1 ∧
        w1.out = w.out ++
          [.stderr "Failed to compile %s shader:\n%s\n"
            [.str (if type = GL_VERTEX_SHADER then "vertex" else "fragment"),
              .str (w.driver (w.calls.length + 5)).text],
           .FATAL "Assertion failed in %s at %s():%d\n %s"
            [.str "main.c", .str "shader_compile", .int 327, .str "id != 0"]] ∧
        w1.calls = w.calls ++
          [⟨"glCreateShader", [.int type]⟩,
           ⟨"glShaderSource", [.int (uint32 (w.driver w.calls.length).val), .int 1, .str source,
              .int 0]⟩,
           ⟨"glCompileShader", [.int (uint32 (w.driver w.calls.length).val)]⟩,
           ⟨"glGetShaderiv", [.int (uint32 (w.driver w.calls.length).val),
              .str "GL_COMPILE_STATUS"]⟩,
           ⟨"glGetShaderiv", [.int (uint32 (w.driver w.calls.length).val),
              .str "GL_INFO_LOG_LENGTH"]⟩,
           ⟨"glGetShaderInfoLog", [.int (uint32 (w.driver w.calls.length).val),
              .int (int32 (w.driver (w.calls.length + 4)).val), .int 0]⟩,
           ⟨"glDeleteShader", [.int (uint32 (w.driver w.calls.length).val)]⟩]) ∧
    (∀ w2, Same w w2 →
      Agree w w2 (shader_compile type source w) (shader_compile type source w2)) := by
  refine ⟨?_, ?_, ?_, ?_⟩
  · exact sat_value (shader_compile_nonzero type source w)
  · intro h
    exact sat_aborted (shader_compile_failure_faults type source w h)
  · intro h0 h1 h2 h3 h4
    have key : shader_compile type source w = .abort
        { w with
          out := w.out ++
            [.stderr "Failed to compile %s shader:\n%s\n"
              [.str (if type = GL_VERTEX_SHADER then "vertex" else "fragment"),
                .str (w.driver (w.calls.length + 5)).text],
             .FATAL "Assertion failed in %s at %s():%d\n %s"
              [.str "main.c", .str "shader_compile", .int 327, .str "id != 0"]],
          gl_errors := (w.driver (w.calls.length + 3)).raised ++
            ((w.driver (w.calls.length + 4)).raised ++
              ((w.driver (w.calls.length + 5)).raised ++ (w.driver (w.calls.length + 6)).raised)),
          calls := w.calls ++
            [⟨"glCreateShader", [.int type]⟩,
             ⟨"glShaderSource", [.int (uint32 (w.driver w.calls.length).val), .int 1,
                .str source, .int 0]⟩,
             ⟨"glCompileShader", [.int (uint32 (w.driver w.calls.length).val)]⟩,
             ⟨"glGetShaderiv", [.int (uint32 (w.driver w.calls.length).val),
                .str "GL_COMPILE_STATUS"]⟩,
             ⟨"glGetShaderiv", [.int (uint32 (w.driver w.calls.length).val),
                .str "GL_INFO_LOG_LENGTH"]⟩,
             ⟨"glGetShaderInfoLog", [.int (uint32 (w.driver w.calls.length).val),
                .int (int32 (w.driver (w.calls.length + 4)).val), .int 0]⟩,
             ⟨"glDeleteShader", [.int (uint32 (w.driver w.calls.length).val)]⟩] } := by
      simp [shader_compile, GLCALL, bind_run, ext_u32, ext_i32, ext, gl_check_error_eq, ASSERT,
        say, pure_run, h0, h1, h2, h3, h4]
    exact ⟨_, key, rfl, rfl⟩
  · intro w2 h
    exact det_shader_compile type source w w2 h

theorem shader_compile_outcome_witness :
    ∃ w1, shader_compile GL_FRAGMENT_SHADER "void main (" failing_compile_world = .abort w1 ∧
      w1.out = failing_compile_world.out ++
        [.stderr "Failed to compile %s shader:\n%s\n"
          [.str "fragment", .str "ERROR: 0:1: unexpected end of input"],
         .FATAL "Assertion failed in %s at %s():%d\n %s"
          [.str "main.c", .str "shader_compile", .int 327, .str "id != 0"]] ∧
      w1.calls = failing_compile_world.calls ++
        [⟨"glCreateShader", [.int GL_FRAGMENT_SHADER]⟩,
         ⟨"glShaderSource", [.int 7, .int 1, .str "void main (", .int 0]⟩,
         ⟨"glCompileShader", [.int 7]⟩,
         ⟨"glGetShaderiv", [.int 7, .str "GL_COMPILE_STATUS"]⟩,
         ⟨"glGetShaderiv", [.int 7, .str "GL_INFO_LOG_LENGTH"]⟩,
         ⟨"glGetShaderInfoLog", [.int 7, .int 7, .int 0]⟩,
         ⟨"glDeleteShader", [.int 7]⟩] :=
  (shader_compile_outcome GL_FRAGMENT_SHADER "void main (" failing_compile_world).2.2.1
    rfl rfl rfl rfl rfl

/-! ## Set-up of the render targets -/

theorem square_setup_sat (r : render_target) (w : World) :
    sat (square_setup r) w
      (fun r1 _ => r1.vao ≠ 0 ∧ r1.shader_id ≠ 0 ∧ r1.shader_ids = r.shader_ids ∧
        r1.texture_ids = r.texture_ids)
      (fun _ => True) := by
  unfold square_setup
  dsimp only
  repeat' with_reducible first
    | apply sat_ASSERT_bind
    | apply sat_bind_skip
    | intro _
  rw [sat_pure]
  simp_all

theorem triangle_setup_sat (r : render_target) (w : World) :
    sat (triangle_setup r) w
      (fun r1 _ => r1.vao ≠ 0 ∧ r1.shader_id ≠ 0 ∧ r1.shader_ids = r.shader_ids ∧
        r1.texture_ids = r.texture_ids)
      (fun _ => True) := by
  unfold triangle_setup
  dsimp only
  repeat' with_reducible first
    | apply sat_ASSERT_bind
    | apply sat_bind_skip
    | intro _
  rw [sat_pure]
  simp_all

theorem texture_setup_sat (r : render_target) (w : World) :
    sat (texture_setup r) w
      (fun r1 _ => r1.vao ≠ 0 ∧ r1.shader_id = r.shader_id ∧
        (∀ i : Fin 10, i.val < 3 → r1.shader_ids i ≠ 0) ∧
        (∀ i : Fin 10, 3 ≤ i.val → r1.shader_ids i = r.shader_ids i) ∧
        (∀ i : Fin 10, i.val < 2 → r1.texture_ids i ≠ 0) ∧
        (∀ i : Fin 10, 2 ≤ i.val → r1.texture_ids i = r.texture_ids i))
      (fun _ => True) := by
  unfold texture_setup
  dsimp only
  repeat' with_reducible first
    | apply sat_ASSERT_bind
    | apply sat_bind_skip
    | intro _
  rw [sat_pure]
  refine ⟨by simp_all, rfl, ?_, ?_, ?_, ?_⟩
  · intro i hi
    fin_cases i <;> simp_all
  · intro i hi
    fin_cases i <;> simp_all [Function.update]
  · intro i hi
    fin_cases i <;> simp_all
  · intro i hi
    fin_cases i <;> simp_all [Function.update]

/-- C7: when a setup routine runs to its end on a zero-initialised render
target, the handles that are not zero are exactly those of its mode.  For
the square and the triangle: `vao` and `shader_id`, with every slot of
`shader_ids` and `texture_ids` still zero.  For the textured quad: `vao`,
`shader_ids[0..2]` and `texture_ids[0..1]`, with `shader_id` and every other
slot still zero. -/
theorem setup_leaves_declared_handles (w : World) :
    (∀ r1, (square_setup render_target.zero w).value? = some r1 →
      r1.vao ≠ 0 ∧ r1.shader_id ≠ 0 ∧ (∀ i, r1.shader_ids i = 0) ∧ (∀ i, r1.texture_ids i = 0)) ∧
    (∀ r1, (triangle_setup render_target.zero w).value? = some r1 →
      r1.vao ≠ 0 ∧ r1.shader_id ≠ 0 ∧ (∀ i, r1.shader_ids i = 0) ∧ (∀ i, r1.texture_ids i = 0)) ∧
    (∀ r1, (texture_setup render_target.zero w).value? = some r1 →
      r1.vao ≠ 0 ∧ r1.shader_id = 0 ∧
      (∀ i : Fin 10, r1.shader_ids i ≠ 0 ↔ i.val < 3) ∧
      (∀ i : Fin 10, r1.texture_ids i ≠ 0 ↔ i.val < 2)) := by
  refine ⟨?_, ?_, ?_⟩
  · intro r1 h
    obtain ⟨h1, h2, h3, h4⟩ := sat_value (square_setup_sat render_target.zero w) r1 h
    exact ⟨h1, h2, fun i => by rw [h3]; rfl, fun i => by rw [h4]; rfl⟩
  · intro r1 h
    obtain ⟨h1, h2, h3, h4⟩ := sat_value (triangle_setup_sat render_target.zero w) r1 h
    exact ⟨h1, h2, fun i => by rw [h3]; rfl, fun i => by rw [h4]; rfl⟩
  · intro r1 h
    obtain ⟨h1, h2, h3, h4, h5, h6⟩ := sat_value (texture_setup_sat render_target.zero w) r1 h
    refine ⟨h1, h2, fun i => ⟨fun hne => ?_, h3 i⟩, fun i => ⟨fun hne => ?_, h5 i⟩⟩
    · by_contra hge
      exact hne ((h4 i (by omega)).trans rfl)
    · by_contra hge
      exact hne ((h6 i (by omega)).trans rfl)

set_option maxRecDepth 100000 in
theorem setup_leaves_declared_handles_witness :
    ((square_setup render_target.zero (quiet_world context.zero)).value? = some plain_target ∧
      (triangle_setup render_target.zero (quiet_world context.zero)).value? = some plain_target ∧
      (texture_setup render_target.zero (quiet_world context.zero)).value? =
        some textured_target) ∧
    (textured_target.vao ≠ 0 ∧ textured_target.shader_id = 0 ∧
      (∀ i : Fin 10, textured_target.shader_ids i ≠ 0 ↔ i.val < 3) ∧
      (∀ i : Fin 10, textured_target.texture_ids i ≠ 0 ↔ i.val < 2)) :=
  have h : (texture_setup render_target.zero (quiet_world context.zero)).value? =
      some textured_target := rfl
  ⟨⟨rfl, rfl, h⟩, (setup_leaves_declared_handles (quiet_world context.zero)).2.2 textured_target h⟩

/-! ## The crash handler -/

theorem stack_trace_loop_spec (process : Int) (frame_count : Nat) :
    ∀ (n i : Nat) (w : World), ∃ w1 d c,
      stack_trace_loop process frame_count n i w = .ok () w1 ∧ Steady w w1 ∧
      w1.out = w.out ++ d ∧ w1.calls = w.calls ++ c := by
  intro n
  induction n with
  | zero => intro i w; exact ⟨w, [], [], rfl, steady_refl w, by simp, by simp⟩
  | succ n ih =>
    intro i w
    obtain ⟨w1, d, c, h1, h2, h3, h4⟩ := ih (i + 1)
      { w with
        out := w.out ++ [.printf "0x%0llX %i: %s\t(%s:%d)\n"
          [.int (w.driver w.calls.length).val, .int ((frame_count : Int) - i - 1),
            .str (w.driver w.calls.length).text, .str (w.driver (w.calls.length + 1)).text,
            .int (w.driver (w.calls.length + 1)).val]],
        gl_errors := w.gl_errors ++ (w.driver w.calls.length).raised ++
          (w.driver (w.calls.length + 1)).raised,
        calls := w.calls ++ [⟨"SymFromAddr", [.int process, .str "stack[i]", .int i, .int 0]⟩] ++
          [⟨"SymGetLineFromAddr", [.int process, .str "stack[i]", .int i]⟩] }
    refine ⟨w1,
      (.printf "0x%0llX %i: %s\t(%s:%d)\n"
          [.int (w.driver w.calls.length).val, .int ((frame_count : Int) - i - 1),
            .str (w.driver w.calls.length).text, .str (w.driver (w.calls.length + 1)).text,
            .int (w.driver (w.calls.length + 1)).val]) :: d,
      ⟨"SymFromAddr", [.int process, .str "stack[i]", .int i, .int 0]⟩ ::
        ⟨"SymGetLineFromAddr", [.int process, .str "stack[i]", .int i]⟩ :: c, ?_, ?_, ?_, ?_⟩
    · rw [← h1]
      simp [stack_trace_loop, bind_run, ext, say]
    · exact ⟨h2.1, h2.2.1, h2.2.2.1, h2.2.2.2.1, h2.2.2.2.2⟩
    · rw [h3]; simp
    · rw [h4]; simp

/-- When the capture fits the 64 slots of `stack`, `stack_trace` returns,
touches only the output, the error queue and the record of calls, and starts
by opening the process symbols, capturing the stack and printing the heading
of the trace. -/
theorem stack_trace_spec (w : World)
    (hcap : ((w.driver (w.calls.length + 3)).val % 65536).toNat ≤ 64) :
    ∃ w1 d c, stack_trace w = .ok () w1 ∧ Steady w w1 ∧
      w1.out = w.out ++
        [.printf "----------------------------------------\n" [],
         .printf "Call Stack:\n" [],
         .printf "----------------------------------------\n" []] ++ d ∧
      w1.calls = w.calls ++
        [⟨"GetCurrentProcess", []⟩,
         ⟨"SymInitialize", [.int (w.driver w.calls.length).val, .int 0, .int 1]⟩,
         ⟨"SymSetOptions", [.str "SYMOPT_LOAD_LINES"]⟩,
         ⟨"CaptureStackBackTrace", [.int 0, .int 100, .str "stack", .int 0]⟩] ++ c := by
  obtain ⟨w1, d, c, h1, h2, h3, h4⟩ := stack_trace_loop_spec (w.driver w.calls.length).val
    ((w.driver (w.calls.length + 3)).val % 65536).toNat
    (((w.driver (w.calls.length + 3)).val % 65536).toNat - 1) 1
    { w with
      out := w.out ++
        [.printf "----------------------------------------\n" [],
         .printf "Call Stack:\n" [],
         .printf "----------------------------------------\n" []],
      gl_errors := w.gl_errors ++ (w.driver w.calls.length).raised ++
        (w.driver (w.calls.length + 1)).raised ++ (w.driver (w.calls.length + 2)).raised ++
        (w.driver (w.calls.length + 3)).raised,
      calls := w.calls ++
        [⟨"GetCurrentProcess", []⟩,
         ⟨"SymInitialize", [.int (w.driver w.calls.length).val, .int 0, .int 1]⟩,
         ⟨"SymSetOptions", [.str "SYMOPT_LOAD_LINES"]⟩,
         ⟨"CaptureStackBackTrace", [.int 0, .int 100, .str "stack", .int 0]⟩] }
  refine ⟨{ w1 with out := w1.out ++ [.printf "----------------------------------------\n" []] },
    d ++ [.printf "----------------------------------------\n" []], c, ?_, ?_, ?_, ?_⟩
  · have hn : ¬ (64 < (w.driver (w.calls.length + 3)).val % 65536) := by omega
    simp [stack_trace, bind_run, ext, say, pure_run, hn] at h1 ⊢
    rw [h1]
  · exact ⟨h2.1, h2.2.1, h2.2.2.1, h2.2.2.2.1, h2.2.2.2.2⟩
  · show w1.out ++ _ = _
    rw [h3]; simp
  · show w1.calls = _
    rw [h4]

/-- What the handler does when the capture fits the 64 slots of `stack`:
for `SIGINT` and for `SIGSEGV` it returns having run `stack_trace` (after
the line "SEGMENTATION FAULT") and with `g__running` false; for every other
signal number it returns with the world exactly as it was, so nothing is
printed and `g__running` is unchanged. -/
theorem signal_handler_within_capacity (signal : Int) (w : World)
    (hcap : ((w.driver (w.calls.length + 3)).val % 65536).toNat ≤ 64) :
    (signal = SIGINT ∨ signal = SIGSEGV →
      ∃ w1 d c, _signal_handler signal w = .ok () w1 ∧
        w1 = { (stack_trace
                { w with g__running := (if signal = SIGINT then false else w.g__running),
                         out := w.out ++ [.FATAL "SEGMENTATION FAULT" []] }).world
               with g__running := false } ∧
        w1.g__running = false ∧
        w1.ctx = w.ctx ∧
        w1.out = w.out ++
          [.FATAL "SEGMENTATION FAULT" [],
           .printf "----------------------------------------\n" [],
           .printf "Call Stack:\n" [],
           .printf "----------------------------------------\n" []] ++ d ∧
        w1.calls = w.calls ++
          [⟨"GetCurrentProcess", []⟩,
           ⟨"SymInitialize", [.int (w.driver w.calls.length).val, .int 0, .int 1]⟩,
           ⟨"SymSetOptions", [.str "SYMOPT_LOAD_LINES"]⟩,
           ⟨"CaptureStackBackTrace", [.int 0, .int 100, .str "stack", .int 0]⟩] ++ c) ∧
    (signal ≠ SIGINT → signal ≠ SIGSEGV → _signal_handler signal w = .ok () w) := by
  constructor
  · rintro (h | h)
    · subst h
      obtain ⟨w1, d, c, h1, h2, h3, h4⟩ := stack_trace_spec
        { w with g__running := false, out := w.out ++ [.FATAL "SEGMENTATION FAULT" []] } hcap
      have e : _signal_handler SIGINT w =
          (stack_trace >>= fun _ => step (fun w2 => { w2 with g__running := false }))
            { w with g__running := false, out := w.out ++ [.FATAL "SEGMENTATION FAULT" []] } :=
        rfl
      refine ⟨{ w1 with g__running := false }, d, c, ?_, ?_, rfl, h2.1, ?_, h4⟩
      · rw [e, bind_run, h1]
        rfl
      · rw [if_pos rfl, h1]
        rfl
      · show w1.out = _
        rw [h3]
        simp
    · subst h
      obtain ⟨w1, d, c, h1, h2, h3, h4⟩ := stack_trace_spec
        { w with out := w.out ++ [.FATAL "SEGMENTATION FAULT" []] } hcap
      have e : _signal_handler SIGSEGV w =
          (stack_trace >>= fun _ => step (fun w2 => { w2 with g__running := false }))
            { w with out := w.out ++ [.FATAL "SEGMENTATION FAULT" []] } :=
        rfl
      refine ⟨{ w1 with g__running := false }, d, c, ?_, ?_, rfl, h2.1, ?_, h4⟩
      · rw [e, bind_run, h1]
        rfl
      · rw [if_neg (by decide), h1]
        rfl
      · show w1.out = _
        rw [h3]
        simp
  · intro h1 h2
    simp [_signal_handler, h1, h2, pure_run]

/-- C11 fails on the code for a deep call stack.  In a running world where
the capture reports 100 frames (the number `stack_trace` asks for, into its
array of 64), the handler called with `SIGSEGV` writes the line
"SEGMENTATION FAULT", makes the four calls up to the capture and then
faults there: it never reaches `g__running = false`, and `g__running` is
still true. -/
theorem signal_handler_overruns_stack :
    deep_stack_world.g__running = true ∧
    (deep_stack_world.driver 3).val = 100 ∧
    (_signal_handler SIGSEGV deep_stack_world).aborted = true ∧
    (_signal_handler SIGSEGV deep_stack_world).world.g__running = true ∧
    (_signal_handler SIGSEGV deep_stack_world).world.out = [.FATAL "SEGMENTATION FAULT" []] ∧
    (_signal_handler SIGSEGV deep_stack_world).world.calls =
      [⟨"GetCurrentProcess", []⟩,
       ⟨"SymInitialize", [.int 1, .int 0, .int 1]⟩,
       ⟨"SymSetOptions", [.str "SYMOPT_LOAD_LINES"]⟩,
       ⟨"CaptureStackBackTrace", [.int 0, .int 100, .str "stack", .int 0]⟩] :=
  ⟨rfl, rfl, rfl, rfl, rfl, rfl⟩

/-! ## The bounds on `variation` -/

theorem process_keydown_variation_ok (key : SDL_Keycode) (w : World) (h : variation_ok w.ctx) :
    variation_ok (process_keydown key w).ctx := by
  obtain ⟨h1, h2, h3⟩ := h
  unfold process_keydown variation_ok
  split_ifs
  all_goals simp only [int32]
  all_goals first
    | exact ⟨h1, h2, h3⟩
    | (refine ⟨h1, h2, ?_⟩; intro hc; cases hc)
    | (refine ⟨?_, ?_, ?_⟩ <;> intros <;> split_ifs <;> omega)

theorem press_keys_variation_ok (keys : List SDL_Keycode) :
    ∀ w : World, variation_ok w.ctx → variation_ok (press_keys keys w).ctx := by
  induction keys with
  | nil => intro w h; exact h
  | cons key rest ih =>
    intro w h
    exact ih (process_keydown key w) (process_keydown_variation_ok key w h)

/-- C12: in every context reached from a start-up context (state
`STATE_INVALID`, `variation` -1) by a finite sequence of key presses,
`variation` lies between -1 and 2, and between 0 and 2 whenever the state is
`STATE_RENDER_TEXTURE`; the read `shader_ids[variation]` of `texture_render`
then stays inside the array, at one of the slots 0, 1, 2, which hold
non-zero handles in any target that `texture_setup` returned. -/
theorem variation_stays_in_range (w : World) (keys : List SDL_Keycode)
    (hs : w.ctx.state = .STATE_INVALID) (hv : w.ctx.variation = -1) :
    -1 ≤ (press_keys keys w).ctx.variation ∧ (press_keys keys w).ctx.variation ≤ 2 ∧
    ((press_keys keys w).ctx.state = .STATE_RENDER_TEXTURE →
      0 ≤ (press_keys keys w).ctx.variation ∧ (press_keys keys w).ctx.variation ≤ 2 ∧
      ∀ rt : render_target, ∃ i : Fin 10,
        i.val < 3 ∧ (i.val : Int) = (press_keys keys w).ctx.variation ∧
        load_shader_ids rt (press_keys keys w).ctx.variation = pure (rt.shader_ids i) ∧
        ∀ w0, (texture_setup render_target.zero w0).value? = some rt → rt.shader_ids i ≠ 0) := by
  have h0 : variation_ok w.ctx := by
    refine ⟨by rw [hv], by rw [hv]; decide, ?_⟩
    intro h
    rw [hs] at h
    cases h
  obtain ⟨h1, h2, h3⟩ := press_keys_variation_ok keys w h0
  refine ⟨h1, h2, fun ht => ⟨h3 ht, h2, fun rt => ?_⟩⟩
  have hlo := h3 ht
  refine ⟨⟨(press_keys keys w).ctx.variation.toNat, by omega⟩, by simp only []; omega,
    by simp only []; omega, ?_, ?_⟩
  · unfold load_shader_ids
    rw [dif_pos ⟨hlo, by omega⟩]
  · intro w0 hw0
    have hsat := sat_value (texture_setup_sat render_target.zero w0) rt hw0
    exact hsat.2.2.1 _ (by simp only []; omega)

theorem variation_stays_in_range_witness :
    (press_keys [SDLK_3, SDLK_w, SDLK_3] first_frame_world).ctx.state = .STATE_RENDER_TEXTURE ∧
    0 ≤ (press_keys [SDLK_3, SDLK_w, SDLK_3] first_frame_world).ctx.variation ∧
    (press_keys [SDLK_3, SDLK_w, SDLK_3] first_frame_world).ctx.variation ≤ 2 :=
  have h := (variation_stays_in_range first_frame_world [SDLK_3, SDLK_w, SDLK_3] rfl rfl).2.2 rfl
  ⟨rfl, h.1, h.2.1⟩

end LearnOpenGL
